import Mathlib

/-!
AFK-Ultron command panel: alert feed, marker store, API clients and event handling.

A shallow embedding of the client-side state handling of the command panel:

* `src/frontend/js/app.js` (`CommandPanel`): the alert feed (`addAlert`), the confidence
  tiers (`getAlertLevel`), the initial load (`loadInitialData`), the socket handlers
  (`handleNewDetection`), the statistics refresh (`updateStatistics`), the location
  dialog (`applyCustomLocation`) and `cleanup`;
* `src/CommandPanel/frontend/css/js/api.js` (`UltronAPI`): `getAlertLevel`,
  `getLiveDetections`, `getStatistics`;
* `src/CommandPanel/frontend/js/api.js` (`API`): `request` and the methods built on it;
* `src/CommandPanel/frontend/js/map.js` (`TacticalMap`): the marker store
  (`addMarker`, `removeMarker`, `clearAllMarkers`, `getMarkerCount`) together with
  the timeouts it schedules, and `updateGeofence`.

JavaScript numbers are modelled by their exact values (`JSNum`), arrays by lists,
objects with identity by a fresh handle, exceptions and rejected promises by `Except`,
the browser's timeout queue by an explicit list of pending timeouts driven by a
controllable clock, and an asynchronous function by a function of the outcome of the
request it awaits.
-/

namespace Ultron

/-! ## JavaScript numbers -/

/-- A JavaScript number by its exact value: `NaN`, the two infinities, or a finite
value (every finite binary64 value is a rational). A property that is missing
(`undefined`) and is only ever used in arithmetic or in a comparison behaves as `nan`. -/
inductive JSNum where
  | nan : JSNum
  | negInf : JSNum
  | fin (q : ℚ) : JSNum
  | posInf : JSNum
  deriving DecidableEq

namespace JSNum

/-- The relational operator `a >= b` on numbers: false as soon as one side is `NaN`. -/
def ge : JSNum → JSNum → Bool
  | nan, _ => false
  | _, nan => false
  | posInf, _ => true
  | _, negInf => true
  | negInf, _ => false
  | fin _, posInf => false
  | fin a, fin b => decide (b ≤ a)

/-- The relational operator `a < b` on numbers: false as soon as one side is `NaN`. -/
def lt : JSNum → JSNum → Bool
  | nan, _ => false
  | _, nan => false
  | posInf, _ => false
  | _, negInf => false
  | negInf, _ => true
  | fin _, posInf => true
  | fin a, fin b => decide (a < b)

/-- The global `isNaN` on a number. -/
def isNaN : JSNum → Bool
  | nan => true
  | _ => false

end JSNum

/-- The binary64 value denoted by the literal `0.85`. -/
def lit085 : ℚ := 7656119366529843 / 9007199254740992

/-- The binary64 value denoted by the literal `0.70`. -/
def lit070 : ℚ := 3152519739159347 / 4503599627370496

/-- The binary64 value denoted by the literal `0.90`. -/
def lit090 : ℚ := 8106479329266893 / 9007199254740992

/-- The binary64 value denoted by the literal `0.72`. -/
def lit072 : ℚ := 3242591731706757 / 4503599627370496

/-- The binary64 value denoted by the literal `0.50`. -/
def lit050 : ℚ := 1 / 2

/-! ## Severity tiers -/

/-- The three strings `getAlertLevel` can return. -/
inductive Tier where
  | LOW : Tier
  | MEDIUM : Tier
  | HIGH : Tier
  deriving DecidableEq, Repr

namespace CommandPanel

/-- `CommandPanel.getAlertLevel(confidence)` (app.js 294-298). -/
def getAlertLevel (confidence : JSNum) : Tier :=
  if confidence.ge (.fin lit085) then Tier.HIGH
  else if confidence.ge (.fin lit070) then Tier.MEDIUM
  else Tier.LOW

end CommandPanel

namespace UltronAPI

/-- The static `UltronAPI.getAlertLevel(confidence)` (css/js/api.js 281-285). -/
def getAlertLevel (confidence : JSNum) : Tier :=
  if confidence.ge (.fin lit085) then Tier.HIGH
  else if confidence.ge (.fin lit070) then Tier.MEDIUM
  else Tier.LOW

end UltronAPI

/-! ## Detections -/

/-- A detection object as delivered by the backend. `latitude` and `longitude` are
`none` when the property is missing (`undefined`): calling `.toFixed` on them then
raises a `TypeError`. `confidence` is the numeric value of the property (`nan` when it
is missing), which is all that `>=` and `*` observe. `id` is the backend-assigned
identifier carried by the payload; no function of the panel reads it. -/
structure Detection where
  id : Nat
  latitude : Option JSNum
  longitude : Option JSNum
  confidence : JSNum
  message : String
  timestamp : String
  image_base64 : Option String
  alert_level : Option String
  deriving DecidableEq

/-- Both coordinates are present, so `latitude.toFixed(6)` and `longitude.toFixed(6)`
evaluate. -/
def Detection.HasCoords (d : Detection) : Prop :=
  d.latitude.isSome = true ∧ d.longitude.isSome = true

instance (d : Detection) : Decidable d.HasCoords := by
  unfold Detection.HasCoords; infer_instance

/-- Both coordinates are present and neither is `NaN`. -/
def Detection.ValidCoords (d : Detection) : Prop :=
  ∃ lat lon, d.latitude = some lat ∧ d.longitude = some lon ∧
    lat.isNaN = false ∧ lon.isNaN = false

/-- The exceptions the modelled code can raise. -/
inductive JSError where
  /-- A `TypeError`: a property read or a method call on `undefined` or `null`. -/
  | typeError : JSError
  /-- Leaflet's `Error('Invalid LatLng object: ...')`. -/
  | invalidLatLng : JSError
  /-- The rejection of `fetch` when the request cannot be made. -/
  | networkError : JSError
  /-- The rejection of `response.json()` on a body that is not JSON. -/
  | syntaxError : JSError
  /-- The `Error` with the text `HTTP <status>: <statusText>`, thrown by `API.request`. -/
  | httpError (status : Nat) (statusText : String) : JSError
  /-- An `Error` thrown with the given message. -/
  | appError (message : String) : JSError
  deriving DecidableEq, Repr

/-! ## The alert feed of `CommandPanel` (app.js) -/

/-- The part of a `CommandPanel` instance that `addAlert` reads and writes. The DOM
elements of `this.elements` are assumed to exist; of the feed element only its
`.alert-item` children are kept (first child first), each by the tier in its class name
and the detection it renders. `sounds` logs the oscillator frequencies that
`playAlertSound` has started. -/
structure CommandPanel where
  alerts : List Detection
  maxAlerts : Nat
  /-- The field `this.audioContext` is non-null. -/
  audioContext : Bool
  /-- The `.alert-item` children of `elements.alertsFeed`. -/
  alertItems : List (Tier × Detection)
  /-- The `.no-alerts` placeholder is in the feed element. -/
  noAlerts : Bool
  /-- The text of `elements.alertCount`. -/
  alertCount : Nat
  sounds : List Nat
  deriving DecidableEq

namespace CommandPanel

/-- The alert-feed fields set by the constructor (app.js 6-12): `alerts = []`,
`maxAlerts = 20`, `audioContext = null`. -/
def new : CommandPanel :=
  { alerts := [], maxAlerts := 20, audioContext := false,
    alertItems := [], noAlerts := true, alertCount := 0, sounds := [] }

/-- `playAlertSound(alertLevel)` (app.js 265-289): nothing without an audio context,
otherwise one tone of 1000 Hz for `HIGH` and 800 Hz for the other tiers. -/
def playAlertSound (p : CommandPanel) (alertLevel : Tier) : CommandPanel :=
  if p.audioContext then
    { p with sounds := p.sounds ++ [if alertLevel = Tier.HIGH then 1000 else 800] }
  else p

/-- `addAlert(detection, playSound)` (app.js 158-203). The template literal of the alert
element calls `latitude.toFixed(6)` and `longitude.toFixed(6)` before anything is
written, so a detection without coordinates raises a `TypeError` and leaves the panel as
it was. Otherwise the element is inserted first in the feed, the detection is
`unshift`ed onto `alerts`, and, if `alerts` is now longer than `maxAlerts`, one `pop()`
removes its last entry (and the last `.alert-item`, if there are more than `maxAlerts`
of them). -/
def addAlert (p : CommandPanel) (detection : Detection) (playSound : Bool) :
    Except JSError CommandPanel :=
  let alertLevel := getAlertLevel detection.confidence
  match detection.latitude, detection.longitude with
  | some _, some _ =>
    let items := (alertLevel, detection) :: p.alertItems
    let alerts := detection :: p.alerts
    let alerts1 := if alerts.length > p.maxAlerts then alerts.dropLast else alerts
    let items1 :=
      if alerts.length > p.maxAlerts then
        (if items.length > p.maxAlerts then items.dropLast else items)
      else items
    let p1 : CommandPanel :=
      { p with alerts := alerts1, alertItems := items1, noAlerts := false,
               alertCount := alerts1.length }
    .ok (if playSound then p1.playAlertSound alertLevel else p1)
  | _, _ => .error JSError.typeError

/-- The panel after a call of `addAlert` whose exception, if any, is caught or lost by
the caller: the result of the call, or the unchanged panel when it raised. -/
def afterAddAlert (p : CommandPanel) (call : Detection × Bool) : CommandPanel :=
  match p.addAlert call.1 call.2 with
  | .ok p1 => p1
  | .error _ => p

/-- A finite sequence of `addAlert` calls, each with its detection and `playSound`
flag. -/
def addAlerts (p : CommandPanel) (calls : List (Detection × Bool)) : CommandPanel :=
  calls.foldl afterAddAlert p

end CommandPanel

/-! ## The marker store of `TacticalMap` (map.js) -/

/-- The circle marker that `L.circleMarker([latitude, longitude], ...)` creates for a
detection. `handle` is the identity of the Leaflet layer object; the popup markup is
not kept. -/
structure CircleMarker where
  handle : Nat
  latlng : JSNum × JSNum
  fillColor : String
  /-- The class `pulse-marker` was added to the marker's element. -/
  pulse : Bool
  deriving DecidableEq

/-- The part of the Leaflet map object (external library) that the store touches: the
handles of the layers now on the map and the centre of the view. -/
structure LeafletMap where
  layers : List Nat
  view : JSNum × JSNum
  deriving DecidableEq

/-- `layer.addTo(map)`. -/
def LeafletMap.addLayer (m : LeafletMap) (handle : Nat) : LeafletMap :=
  { m with layers := m.layers ++ [handle] }

/-- `map.removeLayer(layer)`: Leaflet drops the layer if it is on the map and does
nothing otherwise. -/
def LeafletMap.removeLayer (m : LeafletMap) (handle : Nat) : LeafletMap :=
  { m with layers := m.layers.filter (fun h => h ≠ handle) }

/-- `map.panTo(latlng)`. -/
def LeafletMap.panTo (m : LeafletMap) (latlng : JSNum × JSNum) : LeafletMap :=
  { m with view := latlng }

/-- The object literal `markerData` of `addMarker` (map.js 104-108). `ref` is the
identity of that object: `indexOf` compares entries by identity, and every call of
`addMarker` creates a new object. -/
structure MarkerData where
  ref : Nat
  marker : CircleMarker
  timestamp : Nat
  detection : Detection
  deriving DecidableEq

/-- A pending `setTimeout` callback `() => this.removeMarker(markerData)`: the time at
which it is due and the `markerData` object its closure holds. -/
structure Timeout where
  fireAt : Nat
  markerData : MarkerData
  deriving DecidableEq

/-- What the store uses of the browser: the clock read by `Date.now()` (milliseconds),
the pending timeouts in the order in which they were scheduled, and the supply of
identities for newly created objects. -/
structure Browser where
  now : Nat
  timeouts : List Timeout
  nextObj : Nat
  deriving DecidableEq

/-- The fields of a `TacticalMap` instance (map.js 6-14). `map` is `none` while
`this.map` is `null`, that is, until `init()` has run. -/
structure TacticalMap where
  map : Option LeafletMap
  markers : List MarkerData
  geofence : Option Nat
  centerCoords : JSNum × JSNum
  zoom : Nat
  containerId : String
  markerTimeout : Nat
  deriving DecidableEq

namespace TacticalMap

/-- The constructor (map.js 6-14). -/
def new (containerId : String) (centerCoords : JSNum × JSNum) (zoom : Nat) : TacticalMap :=
  { map := none, markers := [], geofence := none, centerCoords := centerCoords,
    zoom := zoom, containerId := containerId, markerTimeout := 300000 }

/-- `init()` (map.js 19-50): creates the Leaflet map centred on `centerCoords` and puts
the tile layer, the geofence circle and the centre marker on it (three new layer
objects). The container element is assumed to exist. -/
def init (t : TacticalMap) (env : Browser) : TacticalMap × Browser :=
  let tile := env.nextObj
  let fence := env.nextObj + 1
  let centre := env.nextObj + 2
  ({ t with map := some { layers := [tile, fence, centre], view := t.centerCoords },
            geofence := some fence },
   { env with nextObj := env.nextObj + 3 })

/-- The test `alert_level === 'HIGH' || confidence >= 0.85` (map.js 61, 99, 118). -/
def isHigh (detection : Detection) : Bool :=
  detection.alert_level == some "HIGH" || detection.confidence.ge (.fin lit085)

/-- The test `alert_level === 'MEDIUM' || confidence >= 0.70` (map.js 63). -/
def isMedium (detection : Detection) : Bool :=
  detection.alert_level == some "MEDIUM" || detection.confidence.ge (.fin lit070)

/-- The marker colour chosen by `addMarker` (map.js 60-67). -/
def markerColor (detection : Detection) : String :=
  if isHigh detection then "#ff4444"
  else if isMedium detection then "#ffbb33"
  else "#00ff88"

/-- The coordinates Leaflet accepts for `L.circleMarker([latitude, longitude])`: its
`LatLng` constructor raises `Invalid LatLng object` when `isNaN` holds of either one,
which is the case for `undefined` and for `NaN`. -/
def latLng? (detection : Detection) : Option (JSNum × JSNum) :=
  match detection.latitude, detection.longitude with
  | some lat, some lon => if lat.isNaN || lon.isNaN then none else some (lat, lon)
  | _, _ => none

/-- `addMarker(detection)` (map.js 56-123), called when the clock reads `env.now`.
It raises, before anything is written, when Leaflet rejects the coordinates or when
`this.map` is `null`. Otherwise a new circle marker is put on the map, a new
`markerData` object is pushed onto `markers`, a timeout calling `removeMarker` on that
object is scheduled `markerTimeout` milliseconds ahead, and the view pans to a high
alert. Nothing in the body looks for an earlier marker of the same detection, and no
timeout is cancelled. -/
def addMarker (t : TacticalMap) (env : Browser) (detection : Detection) :
    Except JSError (TacticalMap × Browser) :=
  let color := markerColor detection
  match latLng? detection with
  | none => .error JSError.invalidLatLng
  | some latlng =>
    match t.map with
    | none => .error JSError.typeError
    | some m =>
      let marker : CircleMarker :=
        { handle := env.nextObj, latlng := latlng, fillColor := color,
          pulse := isHigh detection }
      let m1 := m.addLayer marker.handle
      let markerData : MarkerData :=
        { ref := env.nextObj + 1, marker := marker, timestamp := env.now,
          detection := detection }
      let markers := t.markers ++ [markerData]
      let timeouts :=
        env.timeouts ++ [{ fireAt := env.now + t.markerTimeout, markerData := markerData }]
      let m2 := if isHigh detection then m1.panTo latlng else m1
      .ok ({ t with map := some m2, markers := markers },
           { env with timeouts := timeouts, nextObj := env.nextObj + 2 })

/-- `this.markers.indexOf(markerData)`: the position of the first entry that is the same
object, `none` standing for `-1`. -/
def indexOf : List MarkerData → MarkerData → Option Nat
  | [], _ => none
  | m :: ms, markerData =>
    if m.ref = markerData.ref then some 0 else (indexOf ms markerData).map (· + 1)

/-- `removeMarker(markerData)` (map.js 129-136): when the object is in `markers`, its
layer is taken off the map and the entry is spliced out; otherwise nothing happens.
With the entry found and `this.map` still `null` the call `this.map.removeLayer`
raises. -/
def removeMarker (t : TacticalMap) (markerData : MarkerData) : Except JSError TacticalMap :=
  match indexOf t.markers markerData with
  | none => .ok t
  | some index =>
    match t.map with
    | none => .error JSError.typeError
    | some m =>
      .ok { t with map := some (m.removeLayer markerData.marker.handle),
                   markers := t.markers.eraseIdx index }

/-- `clearAllMarkers()` (map.js 141-147): every marker's layer is taken off the map and
`markers` becomes the empty array. With a non-empty `markers` and `this.map` still
`null` the first `removeLayer` raises. Pending timeouts are left alone. -/
def clearAllMarkers (t : TacticalMap) : Except JSError TacticalMap :=
  match t.markers, t.map with
  | [], _ => .ok { t with markers := [] }
  | _ :: _, none => .error JSError.typeError
  | ms, some m =>
    .ok { t with map := some (ms.foldl (fun acc md => acc.removeLayer md.marker.handle) m),
                 markers := [] }

/-- `getMarkerCount()` (map.js 159-161). -/
def getMarkerCount (t : TacticalMap) : Nat :=
  t.markers.length

/-- The store has been initialised: `this.map` holds the Leaflet map. -/
def Ready (t : TacticalMap) : Prop :=
  t.map.isSome = true

/-- The markers that were created through `addMarker`: they are distinct objects, and
they exist only once `init()` has created the Leaflet map. Every state the program
reaches has this property (`inv_new`, `inv_init`, `inv_addMarker`, `inv_removeMarker`,
`inv_clearAllMarkers`, `advance_wf`, `insertAt_ok`). -/
def Inv (t : TacticalMap) : Prop :=
  (t.markers ≠ [] → t.map.isSome = true) ∧ (t.markers.map MarkerData.ref).Nodup

instance (t : TacticalMap) : Decidable t.Inv := by
  unfold Inv; infer_instance

/-- The markers whose detection carries the identifier `id`. -/
def markersOf (t : TacticalMap) (id : Nat) : List MarkerData :=
  t.markers.filter (fun m => m.detection.id = id)

end TacticalMap

/-! ## The store and the browser's timeouts -/

/-- A marker store together with the browser it runs in. -/
structure World where
  tmap : TacticalMap
  env : Browser
  deriving DecidableEq

namespace World

/-- A store right after `new TacticalMap(...)` and `init()`, with the clock at `now`. -/
def start (now : Nat) : World :=
  let r := (TacticalMap.new "map" (.fin 28, .fin 77) 14).init
    { now := now, timeouts := [], nextObj := 0 }
  { tmap := r.1, env := r.2 }

/-- One due timeout runs its callback `this.removeMarker(markerData)`. An exception
raised by the callback is lost to the event loop and the store stays as it was. -/
def fire (t : TacticalMap) (timeout : Timeout) : TacticalMap :=
  match t.removeMarker timeout.markerData with
  | .ok t1 => t1
  | .error _ => t

/-- The timeouts that are due at time `time`, earliest first and, among equal times, in
the order in which they were scheduled. -/
def due (env : Browser) (time : Nat) : List Timeout :=
  (env.timeouts.filter (fun x => x.fireAt ≤ time)).insertionSort
    (fun a b => a.fireAt ≤ b.fireAt)

/-- The clock advances to `time`: every timeout due by then fires, in order, and leaves
the queue. The callbacks neither schedule timeouts nor read the clock. -/
def advance (w : World) (time : Nat) : World :=
  { tmap := (due w.env time).foldl fire w.tmap,
    env := { w.env with now := max w.env.now time,
                        timeouts := w.env.timeouts.filter (fun x => ¬ x.fireAt ≤ time) } }

/-- The event `addMarker(detection)` arriving at time `time`: the clock advances to
`time` and the call runs; if it raises, the store stays as it was. -/
def insertAt (w : World) (time : Nat) (detection : Detection) : World :=
  let w1 := w.advance time
  match w1.tmap.addMarker w1.env detection with
  | .ok r => { tmap := r.1, env := r.2 }
  | .error _ => w1

/-- Well-formed worlds: the store invariant, and every `markerData` object in `markers`
or held by a pending timeout was created before, so that its identity is below
`nextObj`. -/
def WF (w : World) : Prop :=
  w.tmap.Inv ∧ (∀ m ∈ w.tmap.markers, m.ref < w.env.nextObj) ∧
    (∀ x ∈ w.env.timeouts, x.markerData.ref < w.env.nextObj)

end World

/-- A sample detection with the given identifier and confidence. -/
def sampleDetection (id : Nat) (confidence : ℚ) : Detection :=
  { id := id, latitude := some (.fin 28), longitude := some (.fin 77),
    confidence := .fin confidence, message := "person", timestamp := "t",
    image_base64 := none, alert_level := none }

/-- Calls of `addAlert` with sound, one for each identifier below `n` in turn. -/
def sampleCalls (n : Nat) : List (Detection × Bool) :=
  (List.range n).map (fun i => (sampleDetection i lit050, true))

/-- A store holding one marker, for a detection with identifier 7 inserted at time 0. -/
def oneMarkerWorld : World :=
  (World.start 0).insertAt 0 (sampleDetection 7 lit090)

/-- The `markerData` object that `oneMarkerWorld` holds. -/
def sampleMarker : MarkerData :=
  { ref := 4,
    marker := { handle := 3, latlng := (.fin 28, .fin 77),
                fillColor := TacticalMap.markerColor (sampleDetection 7 lit090),
                pulse := TacticalMap.isHigh (sampleDetection 7 lit090) },
    timestamp := 0, detection := sampleDetection 7 lit090 }

/-- The store of `oneMarkerWorld` after the same detection was inserted again at time
1000. -/
def twoMarkerWorld : World :=
  oneMarkerWorld.insertAt 1000 (sampleDetection 7 lit090)

/-! ## The API clients (css/js/api.js and js/api.js) -/

/-- The `statistics` object of a statistics envelope; a field is `none` when the
property is missing. -/
structure Statistics where
  total_detections : Option Nat
  high_alerts : Option Nat
  peak_hour : Option String
  average_confidence : Option ℚ
  deriving DecidableEq

/-- A parsed JSON object answered by the backend. `success` is the truthiness of
`data.success`; the other fields are `none` when the property is missing. A parsed value
that is not an object (a number, a string) has none of the properties and behaves as the
envelope with `success = false` and every field missing. -/
structure Envelope where
  success : Bool
  detections : Option (List Detection)
  statistics : Option Statistics
  error : Option String
  deriving DecidableEq

/-- What `await response.json()` gives: a rejection, the value `null`, or an object. -/
inductive Body where
  | unparsable : Body
  | null : Body
  | object (data : Envelope) : Body
  deriving DecidableEq

/-- The outcome of `await fetch(url)`: a rejection, or a response with its `ok` flag, its
status and its body. -/
inductive FetchResult where
  | rejected : FetchResult
  | response (ok : Bool) (status : Nat) (statusText : String) (body : Body) : FetchResult
  deriving DecidableEq

/-- The operand `data.error || fallback`: the fallback when the error text is missing or
empty. -/
def errorOr (error : Option String) (fallback : String) : String :=
  match error with
  | some e => if e = "" then fallback else e
  | none => fallback

namespace UltronAPI

/-- The `try` block of `getLiveDetections()` (css/js/api.js 50-58): the response's `ok`
flag is not looked at; reading `data.success` of `null` raises a `TypeError`; an envelope
whose `success` is falsy makes the block throw. -/
def getLiveDetectionsTry (r : FetchResult) : Except JSError (Option (List Detection)) :=
  match r with
  | .rejected => .error JSError.networkError
  | .response _ _ _ .unparsable => .error JSError.syntaxError
  | .response _ _ _ .null => .error JSError.typeError
  | .response _ _ _ (.object data) =>
    if data.success then .ok data.detections
    else .error (JSError.appError (errorOr data.error "Failed to fetch detections"))

/-- `getLiveDetections()` (css/js/api.js 49-63): the `catch` block logs the error and
returns the empty array. The result is `none` when the function returns `undefined`
(an envelope with a truthy `success` and no `detections`). -/
def getLiveDetections (r : FetchResult) : Except JSError (Option (List Detection)) :=
  match getLiveDetectionsTry r with
  | .ok detections => .ok detections
  | .error _ => .ok (some [])

/-- The `try` block of `getStatistics(period)` (css/js/api.js 91-99). -/
def getStatisticsTry (r : FetchResult) : Except JSError (Option Statistics) :=
  match r with
  | .rejected => .error JSError.networkError
  | .response _ _ _ .unparsable => .error JSError.syntaxError
  | .response _ _ _ .null => .error JSError.typeError
  | .response _ _ _ (.object data) =>
    if data.success then .ok data.statistics
    else .error (JSError.appError (errorOr data.error "Failed to fetch statistics"))

/-- `getStatistics(period)` (css/js/api.js 90-104): the `catch` block logs the error and
returns `null` (`none`). The period only enters the URL that was fetched. -/
def getStatistics (_period : String) (r : FetchResult) : Except JSError (Option Statistics) :=
  match getStatisticsTry r with
  | .ok statistics => .ok statistics
  | .error _ => .ok none

end UltronAPI

namespace API

/-- The `try` block of `API.request(endpoint, options)` (js/api.js 9-23): the parsed
body (`none` for `null`) of a response whose `ok` flag is set. -/
def requestTry (r : FetchResult) : Except JSError (Option Envelope) :=
  match r with
  | .rejected => .error JSError.networkError
  | .response ok status statusText body =>
    if ok then
      match body with
      | .unparsable => .error JSError.syntaxError
      | .null => .ok none
      | .object data => .ok (some data)
    else .error (JSError.httpError status statusText)

/-- `API.request(endpoint, options)` (js/api.js 8-28): the `catch` block logs the error
and throws it again. -/
def request (_endpoint : String) (r : FetchResult) : Except JSError (Option Envelope) :=
  match requestTry r with
  | .ok data => .ok data
  | .error error => .error error

/-- `API.getLiveDetections()` (js/api.js 30-32). -/
def getLiveDetections (r : FetchResult) : Except JSError (Option Envelope) :=
  request "/api/detections/live" r

/-- `API.getStatistics(period)` (js/api.js 38-40). -/
def getStatistics (period : String) (r : FetchResult) : Except JSError (Option Envelope) :=
  request ("/api/statistics?period=" ++ period) r

/-- `API.exportCSV(period)` (js/api.js 42-44). -/
def exportCSV (period : String) (r : FetchResult) : Except JSError (Option Envelope) :=
  request ("/api/export/csv?period=" ++ period) r

/-- `API.exportPDF(period)` (js/api.js 46-48). -/
def exportPDF (period : String) (r : FetchResult) : Except JSError (Option Envelope) :=
  request ("/api/export/pdf?period=" ++ period) r

end API

/-- An envelope that reports a backend failure. -/
def failureEnvelope : Envelope :=
  { success := false, detections := none, statistics := none, error := some "db down" }

/-- A response with status 500. -/
def serverError : FetchResult :=
  .response false 500 "Internal Server Error" (.object failureEnvelope)

/-! ## Marker tiers -/

/-- The string of a tier, as `getAlertLevel` returns it. -/
def Tier.toString : Tier → String
  | .LOW => "LOW"
  | .MEDIUM => "MEDIUM"
  | .HIGH => "HIGH"

/-- The position of a tier in the order `LOW < MEDIUM < HIGH`. -/
def Tier.rank : Tier → Nat
  | .LOW => 0
  | .MEDIUM => 1
  | .HIGH => 2

/-- The higher of two tiers. -/
def Tier.max (a b : Tier) : Tier :=
  if a.rank ≤ b.rank then b else a

namespace TacticalMap

/-- The tier a marker colour stands for: red for `HIGH`, amber for `MEDIUM`, green for
`LOW`. -/
def colorTier (color : String) : Option Tier :=
  if color = "#ff4444" then some Tier.HIGH
  else if color = "#ffbb33" then some Tier.MEDIUM
  else if color = "#00ff88" then some Tier.LOW
  else none

/-- The backend-supplied tier in the words of the claim about the merge of the two
signals: the `alert_level` when it is `'HIGH'` or `'MEDIUM'`, and `LOW` when it is
absent or anything else. -/
def suppliedTier (alert_level : Option String) : Tier :=
  if alert_level = some "HIGH" then Tier.HIGH
  else if alert_level = some "MEDIUM" then Tier.MEDIUM
  else Tier.LOW

/-- The marker tier in the words of the claim about the merge of the two signals: the
maximum of the backend-supplied tier and the tier derived from the confidence. It is
compared with `markerColor`, which is translated from the source. -/
def specMarkerTier (detection : Detection) : Tier :=
  Tier.max (suppliedTier detection.alert_level)
    (CommandPanel.getAlertLevel detection.confidence)

end TacticalMap

/-- A detection whose backend-supplied `alert_level` is `'LOW'` and whose confidence is
`0.90`. -/
def lowLevelHighConfidence : Detection :=
  { sampleDetection 11 lit090 with alert_level := some "LOW" }

/-! ## The panel as a whole (app.js) -/

/-- One call of `showToast(icon, title, message)`. -/
structure Toast where
  icon : String
  title : String
  message : String
  deriving DecidableEq

/-- The four statistics of the dashboard: the numbers on which `animateValue` ends for
the total and the high alerts, the peak hour text, and the average confidence whose
percentage is shown. -/
structure StatsDisplay where
  totalDetections : Nat
  highAlerts : Nat
  peakHour : String
  avgConfidence : ℚ
  deriving DecidableEq

/-- The payload of a `new_detection` event. -/
structure NewDetection where
  detection : Detection
  duration : Nat
  detection_id : Nat
  deriving DecidableEq

/-- A `CommandPanel` instance once `init()` has created its map (app.js 53-54), with
what it uses of the browser: the alert feed (`panel`), the `TacticalMap` and the
timeouts it schedules (`world`), the log of the toasts shown, the displayed statistics,
the value of the period selector, the log of the statistics requests issued, the field
`statsUpdateInterval`, the identifiers of the intervals now running, the supply of
interval identifiers, the connection indicator, and whether the audio context has been
closed. The timeout that hides a toast after three seconds only removes a CSS class and
is not kept. -/
structure App where
  panel : CommandPanel
  world : World
  toasts : List Toast
  display : StatsDisplay
  statsPeriod : String
  statsRequests : List String
  statsUpdateInterval : Option Nat
  intervals : List Nat
  nextIntervalId : Nat
  connected : Bool
  audioClosed : Bool
  deriving DecidableEq

namespace App

/-- `showToast(icon, title, message)` (app.js 316-326). -/
def showToast (a : App) (icon title message : String) : App :=
  { a with toasts := a.toasts ++ [{ icon := icon, title := title, message := message }] }

/-- `updateStatistics()` up to its `await` (app.js 209-211): the period is read and the
statistics request is issued. -/
def updateStatisticsBegin (a : App) : App :=
  { a with statsRequests := a.statsRequests ++ [a.statsPeriod] }

/-- `updateStatistics()` from its `await` on (app.js 211-227), with the outcome of the
request: a statistics object replaces the four displayed values, `null` leaves them.
The function has no `else` branch and its `catch` block only logs, so it completes
normally in every case. -/
def updateStatisticsEnd (a : App) (period : String) (r : FetchResult) : Except JSError App :=
  match UltronAPI.getStatistics period r with
  | .ok (some stats) =>
    .ok { a with display :=
            { totalDetections := stats.total_detections.getD 0,
              highAlerts := stats.high_alerts.getD 0,
              peakHour := errorOr stats.peak_hour "--:--",
              avgConfidence := stats.average_confidence.getD 0 } }
  | .ok none => .ok a
  | .error _ => .ok a

/-- `updateStatistics()` (app.js 208-228) run to completion with the outcome `r` of its
request. The result is what the caller's `await` sees: `.ok` for a fulfilled promise,
`.error` for a rejected one. -/
def updateStatistics (a : App) (r : FetchResult) : Except JSError App :=
  a.updateStatisticsBegin.updateStatisticsEnd a.statsPeriod r

/-- `handleNewDetection(data)` (app.js 138-153): the marker, the alert with its sound, the
statistics request (not awaited), and the toast. -/
def handleNewDetection (a : App) (data : NewDetection) : Except JSError App :=
  match a.world.tmap.addMarker a.world.env data.detection with
  | .error e => .error e
  | .ok r =>
    match a.panel.addAlert data.detection true with
    | .error e => .error e
    | .ok p1 =>
      let a1 : App := { a with world := { tmap := r.1, env := r.2 }, panel := p1 }
      let a2 := a1.updateStatisticsBegin
      let alertLevel := CommandPanel.getAlertLevel data.detection.confidence
      .ok (a2.showToast "🚨" (alertLevel.toString ++ " Alert") data.detection.message)

/-- `updateConnectionStatus(connected)` (app.js 303-311). -/
def updateConnectionStatus (a : App) (connected : Bool) : App :=
  { a with connected := connected }

/-- The handler of the socket's `connect` event (app.js 85-89). -/
def onConnect (a : App) : App :=
  (a.updateConnectionStatus true).showToast "✅" "Connected" "Real-time updates active"

/-- The handler of the socket's `disconnect` event (app.js 91-95). -/
def onDisconnect (a : App) : App :=
  (a.updateConnectionStatus false).showToast "❌" "Disconnected" "Attempting to reconnect..."

/-- The handler of the socket's `new_detection` event (app.js 97-100). An exception of
`handleNewDetection` is lost to the event loop; it can only come from `addMarker`, before
anything is written (`handleNewDetection_error`), so the panel is then as it was. -/
def onNewDetection (a : App) (data : NewDetection) : App :=
  match a.handleNewDetection data with
  | .ok a1 => a1
  | .error _ => a

/-- The socket events the panel subscribes to (app.js 85-104). -/
inductive SocketEvent where
  | connect : SocketEvent
  | disconnect : SocketEvent
  | newDetection (data : NewDetection) : SocketEvent
  | detectionsUpdate : SocketEvent
  deriving DecidableEq

/-- The panel handles one socket event; `detections_update` is only logged. -/
def handle (a : App) : SocketEvent → App
  | .connect => a.onConnect
  | .disconnect => a.onDisconnect
  | .newDetection data => a.onNewDetection data
  | .detectionsUpdate => a

/-- The loop `detections.forEach(detection => this.map.addMarker(detection))` (app.js
117-119): the store reached, and the exception that ended the loop, if any. -/
def addMarkers (w : World) : List Detection → World × Option JSError
  | [] => (w, none)
  | d :: ds =>
    match w.tmap.addMarker w.env d with
    | .ok r => addMarkers { tmap := r.1, env := r.2 } ds
    | .error e => (w, some e)

/-- The loop `forEach(detection => this.addAlert(detection, false))` (app.js 122-124):
the feed reached, and the exception that ended the loop, if any. -/
def seedAlerts (p : CommandPanel) : List Detection → CommandPanel × Option JSError
  | [] => (p, none)
  | d :: ds =>
    match p.addAlert d false with
    | .ok p1 => seedAlerts p1 ds
    | .error e => (p, some e)

/-- `detections.slice(-n)`: the last `n` entries, or all of them when there are fewer. -/
def sliceLast {α : Type} (n : Nat) (l : List α) : List α :=
  l.drop (l.length - n)

/-- `loadInitialData()` (app.js 110-133) from the outcome `live` of its detections
request up to the `await` of `updateStatistics()`, whose outcome `updateStatisticsEnd`
handles. Reading `detections.length` of `undefined` raises; any exception inside the
`try` block ends it and the `catch` block shows the error toast. -/
def loadInitialData (a : App) (live : FetchResult) : App :=
  match UltronAPI.getLiveDetections live with
  | .error _ => a.showToast "❌" "Error" "Failed to load initial data"
  | .ok none => a.showToast "❌" "Error" "Failed to load initial data"
  | .ok (some detections) =>
    match addMarkers a.world detections with
    | (w1, some _) =>
      ({ a with world := w1 }).showToast "❌" "Error" "Failed to load initial data"
    | (w1, none) =>
      match seedAlerts a.panel (sliceLast 10 detections).reverse with
      | (p1, some _) =>
        ({ a with world := w1, panel := p1 }).showToast "❌" "Error"
          "Failed to load initial data"
      | (p1, none) => ({ a with world := w1, panel := p1 }).updateStatisticsBegin

/-- `startStatsUpdate()` (app.js 255-260): a new interval, whose identifier is kept in
`statsUpdateInterval`. -/
def startStatsUpdate (a : App) : App :=
  { a with statsUpdateInterval := some a.nextIntervalId,
           intervals := a.intervals ++ [a.nextIntervalId],
           nextIntervalId := a.nextIntervalId + 1 }

/-- `cleanup()` (app.js 562-569): `clearInterval` on a truthy `statsUpdateInterval` and
`close()` on the audio context, if there is one. Neither field is reset and no timeout
is touched. -/
def cleanup (a : App) : App :=
  let a1 : App :=
    match a.statsUpdateInterval with
    | some id => if id = 0 then a else { a with intervals := a.intervals.filter (fun i => i ≠ id) }
    | none => a
  if a1.panel.audioContext then { a1 with audioClosed := true } else a1

/-- The panel inside `init()`, right after the map has been created at time `now`
(app.js 53-54): the fields are those of the constructor, the statistics show their
placeholders, and the socket is not yet connected. -/
def initial (now : Nat) : App :=
  { panel := CommandPanel.new, world := World.start now, toasts := [],
    display := { totalDetections := 0, highAlerts := 0, peakHour := "--:--",
                 avgConfidence := 0 },
    statsPeriod := "today", statsRequests := [], statsUpdateInterval := none,
    intervals := [], nextIntervalId := 1, connected := false, audioClosed := false }

/-- The panel after `init()` has run with no live detection to load: the statistics
interval runs, the audio context exists, and the socket is connected. -/
def live (now : Nat) : App :=
  let a := (initial now).startStatsUpdate
  { a with panel := { a.panel with audioContext := true }, connected := true }

end App

/-- A response with status 200 whose envelope carries the given live detections. -/
def liveResponse (detections : List Detection) : FetchResult :=
  .response true 200 "OK"
    (.object { success := true, detections := some detections, statistics := none,
               error := none })

/-- A response with status 200 whose envelope reports a failure (`success: false`). -/
def failureResponse : FetchResult :=
  .response true 200 "OK" (.object failureEnvelope)

/-- A detection whose `latitude` is missing. -/
def malformedDetection (id : Nat) : Detection :=
  { sampleDetection id lit050 with latitude := none }

/-- Two live detections in chronological order: 1 is the older, 2 the newer. -/
def twoLive : List Detection :=
  [sampleDetection 1 lit050, sampleDetection 2 lit050]

/-- Eleven live detections listed newest first: the identifiers 11, 10, ..., 1, where a
higher identifier is a more recent detection. -/
def elevenNewestFirst : List Detection :=
  (List.range 11).reverse.map (fun i => sampleDetection (i + 1) lit050)

/-- Three live detections of which the second is malformed. -/
def batchWithMalformed : List Detection :=
  [sampleDetection 1 lit050, malformedDetection 2, sampleDetection 3 lit050]

/-- The payload of a `new_detection` event for the sample detection 7. -/
def sampleEvent : NewDetection :=
  { detection := sampleDetection 7 lit090, duration := 3, detection_id := 7 }

/-! ## The location dialog (app.js 497-557, map.js 167-180) -/

/-- `map.setView(latlng, zoom)`; the zoom level of the Leaflet map is not kept. -/
def LeafletMap.setView (m : LeafletMap) (latlng : JSNum × JSNum) : LeafletMap :=
  { m with view := latlng }

namespace TacticalMap

/-- `updateGeofence(radius)` (map.js 167-180): the store and browser reached, and the
exception that ended the call, if any. An old geofence is taken off the map first, which
raises when `this.map` is `null`; `L.circle(this.centerCoords, ...)` raises on a `NaN`
coordinate; `addTo(this.map)` raises when `this.map` is `null`. -/
def updateGeofence (t : TacticalMap) (env : Browser) (_radius : Nat) :
    TacticalMap × Browser × Option JSError :=
  match t.geofence, t.map with
  | some _, none => (t, env, some JSError.typeError)
  | fence, map =>
    let map1 : Option LeafletMap :=
      match fence, map with
      | some g, some m => some (m.removeLayer g)
      | _, m => m
    if t.centerCoords.1.isNaN || t.centerCoords.2.isNaN then
      ({ t with map := map1 }, env, some JSError.invalidLatLng)
    else
      match map1 with
      | none => ({ t with map := map1 }, env, some JSError.typeError)
      | some m1 =>
        ({ t with map := some (m1.addLayer env.nextObj), geofence := some env.nextObj },
         { env with nextObj := env.nextObj + 1 }, none)

end TacticalMap

/-- What the location dialog shows: the text of `elements.currentLocation` and whether
the modal has the class `show`. -/
structure LocationView where
  currentLocation : String
  modalShown : Bool
  deriving DecidableEq

namespace App

/-- `applyCustomLocation()` (app.js 520-557), given the two numbers that `parseFloat`
made of the input fields (`NaN`, a finite number, or an infinity) and the built-in
`Number.prototype.toFixed` as `toFixed`: the panel and dialog reached, and the exception
that ended the call, if any. The three guards show an error toast and return; otherwise
`centerCoords` is assigned first, then the view is set (which raises when the Leaflet
map is `null`), the geofence is redrawn, the dialog is closed and the success toast is
shown. -/
def applyCustomLocation (toFixed : JSNum → Nat → String) (a : App) (v : LocationView)
    (lat lon : JSNum) : App × LocationView × Option JSError :=
  if lat.isNaN || lon.isNaN then
    (a.showToast "❌" "Invalid Input" "Please enter valid coordinates", v, none)
  else if lat.lt (.fin (-90)) || (JSNum.fin 90).lt lat then
    (a.showToast "❌" "Invalid Latitude" "Latitude must be between -90 and 90", v, none)
  else if lon.lt (.fin (-180)) || (JSNum.fin 180).lt lon then
    (a.showToast "❌" "Invalid Longitude" "Longitude must be between -180 and 180", v, none)
  else
    let t1 : TacticalMap := { a.world.tmap with centerCoords := (lat, lon) }
    match t1.map with
    | none => ({ a with world := { a.world with tmap := t1 } }, v, some JSError.typeError)
    | some m =>
      let t2 : TacticalMap := { t1 with map := some (m.setView (lat, lon)) }
      match t2.updateGeofence a.world.env 5000 with
      | (t3, env3, some e) => ({ a with world := { tmap := t3, env := env3 } }, v, some e)
      | (t3, env3, none) =>
        let text := toFixed lat 4 ++ ", " ++ toFixed lon 4
        (({ a with world := { tmap := t3, env := env3 } } : App).showToast "📍"
            "Location Updated" ("Map centered at " ++ text),
          { currentLocation := text, modalShown := false }, none)

/-- The accepted inputs in the words of the claim: both parsed inputs are numbers (not
`NaN`), with `-90 <= lat <= 90` and `-180 <= lon <= 180`. It is compared with the
guards of `applyCustomLocation`, which are translated from the source. -/
def ValidLocation (lat lon : JSNum) : Prop :=
  ∃ x y : ℚ, lat = .fin x ∧ lon = .fin y ∧ -90 ≤ x ∧ x ≤ 90 ∧ -180 ≤ y ∧ y ≤ 180

end App

/-! ## Severity tiers: theorems -/

/-- C1: for every confidence `c`, both `CommandPanel.getAlertLevel` and
`UltronAPI.getAlertLevel` return `HIGH` when `c >= 0.85`, `MEDIUM` when `c >= 0.70` and
`c < 0.85`, and `LOW` in every other case (a `NaN` included); the confidences `0.90`,
`0.72` and `0.50` map to `HIGH`, `MEDIUM` and `LOW`. -/
theorem getAlertLevel_thresholds (c : JSNum) :
    (c.ge (.fin lit085) = true →
      CommandPanel.getAlertLevel c = Tier.HIGH ∧ UltronAPI.getAlertLevel c = Tier.HIGH) ∧
    (c.ge (.fin lit070) = true ∧ c.lt (.fin lit085) = true →
      CommandPanel.getAlertLevel c = Tier.MEDIUM ∧ UltronAPI.getAlertLevel c = Tier.MEDIUM) ∧
    (¬ c.ge (.fin lit085) = true ∧ ¬ (c.ge (.fin lit070) = true ∧ c.lt (.fin lit085) = true) →
      CommandPanel.getAlertLevel c = Tier.LOW ∧ UltronAPI.getAlertLevel c = Tier.LOW) ∧
    ([lit090, lit072, lit050].map (fun q => CommandPanel.getAlertLevel (.fin q))
        = [Tier.HIGH, Tier.MEDIUM, Tier.LOW] ∧
     [lit090, lit072, lit050].map (fun q => UltronAPI.getAlertLevel (.fin q))
        = [Tier.HIGH, Tier.MEDIUM, Tier.LOW]) := by
  refine ⟨?_, ?_, ?_, ?_⟩
  · intro h
    simp [CommandPanel.getAlertLevel, UltronAPI.getAlertLevel, h]
  · rintro ⟨h70, h85⟩
    have hge : c.ge (.fin lit085) = false := by
      cases c <;> simp_all [JSNum.ge, JSNum.lt]
    simp [CommandPanel.getAlertLevel, UltronAPI.getAlertLevel, h70, hge]
  · rintro ⟨h85, hmid⟩
    have hge : c.ge (.fin lit085) = false := by simpa using h85
    have h70 : c.ge (.fin lit070) = false := by
      cases c <;> simp_all [JSNum.ge, JSNum.lt]
    simp [CommandPanel.getAlertLevel, UltronAPI.getAlertLevel, h70, hge]
  · constructor <;>
      simp [CommandPanel.getAlertLevel, UltronAPI.getAlertLevel, JSNum.ge, lit085, lit070,
        lit090, lit072, lit050] <;> norm_num

/-! ## The alert feed: theorems -/

namespace CommandPanel

/-- A call of `addAlert` with a detection that has coordinates returns, and `alerts`
is then the detection followed by the old entries, less the last one when that is one
entry too many. -/
theorem addAlert_ok (p : CommandPanel) (d : Detection) (s : Bool) (h : d.HasCoords) :
    ∃ p1, p.addAlert d s = .ok p1 ∧ p1.maxAlerts = p.maxAlerts ∧
      p1.alerts = (if (d :: p.alerts).length > p.maxAlerts then (d :: p.alerts).dropLast
                   else d :: p.alerts) := by
  obtain ⟨hlat, hlon⟩ := h
  obtain ⟨lat, hlat⟩ := Option.isSome_iff_exists.mp hlat
  obtain ⟨lon, hlon⟩ := Option.isSome_iff_exists.mp hlon
  cases s <;> simp only [addAlert, hlat, hlon, playAlertSound] <;> refine ⟨_, rfl, ?_, ?_⟩
  · rfl
  · rfl
  · split_ifs <;> rfl
  · split_ifs <;> rfl

/-- A call of `addAlert` either raises and leaves the panel alone or keeps `maxAlerts`
and changes `alerts` as `addAlert_ok` says. -/
theorem afterAddAlert_cases (p : CommandPanel) (c : Detection × Bool) :
    p.afterAddAlert c = p ∨
      ((p.afterAddAlert c).maxAlerts = p.maxAlerts ∧
        (p.afterAddAlert c).alerts =
          (if (c.1 :: p.alerts).length > p.maxAlerts then (c.1 :: p.alerts).dropLast
           else c.1 :: p.alerts)) := by
  by_cases h : c.1.HasCoords
  · obtain ⟨p1, hp1, hmax, hal⟩ := addAlert_ok p c.1 c.2 h
    right
    simp only [afterAddAlert, hp1]
    exact ⟨hmax, hal⟩
  · left
    have herr : p.addAlert c.1 c.2 = .error JSError.typeError := by
      unfold Detection.HasCoords at h
      unfold addAlert
      cases hlat : c.1.latitude <;> cases hlon : c.1.longitude <;> simp_all
    simp [afterAddAlert, herr]

/-- One call of `addAlert` keeps `maxAlerts` and keeps `alerts` within it. -/
theorem afterAddAlert_bound (p : CommandPanel) (c : Detection × Bool)
    (h : p.alerts.length ≤ p.maxAlerts) :
    (p.afterAddAlert c).maxAlerts = p.maxAlerts ∧
      (p.afterAddAlert c).alerts.length ≤ p.maxAlerts := by
  rcases afterAddAlert_cases p c with heq | ⟨hmax, hal⟩
  · rw [heq]; exact ⟨rfl, h⟩
  · refine ⟨hmax, ?_⟩
    rw [hal]
    split_ifs with hgt
    · simp only [List.length_dropLast, List.length_cons]
      omega
    · simp only [List.length_cons] at hgt ⊢
      omega

/-- A sequence of `addAlert` calls keeps `maxAlerts` and keeps `alerts` within it. -/
theorem addAlerts_bound (calls : List (Detection × Bool)) :
    ∀ p : CommandPanel, p.alerts.length ≤ p.maxAlerts →
      (p.addAlerts calls).maxAlerts = p.maxAlerts ∧
        (p.addAlerts calls).alerts.length ≤ p.maxAlerts := by
  induction calls with
  | nil => intro p h; exact ⟨rfl, h⟩
  | cons c cs ih =>
    intro p h
    obtain ⟨hmax, hlen⟩ := afterAddAlert_bound p c h
    have := ih (p.afterAddAlert c) (by rw [hmax]; exact hlen)
    simpa [addAlerts, hmax] using this

/-- Dropping the last entry of a list that is one entry too long is taking its first
`n` entries. -/
theorem dropLast_eq_take_of_length {α : Type} (l : List α) (n : Nat)
    (h : l.length = n + 1) : l.dropLast = l.take n := by
  rw [List.dropLast_eq_take, h]
  rfl

/-- Taking the first `n` entries makes no difference under a later take of `n`. -/
theorem take_append_take {α : Type} (l m : List α) (n : Nat) :
    (l ++ m.take n).take n = (l ++ m).take n := by
  rw [List.take_append_eq_append_take, @List.take_append_eq_append_take _ l m n,
    List.take_take]
  congr 2
  omega

/-- On a feed within its capacity, `addAlert` leaves the first `maxAlerts` entries of
the detection followed by the old entries. -/
theorem addAlert_take (p : CommandPanel) (d : Detection) (s : Bool) (h : d.HasCoords)
    (hlen : p.alerts.length ≤ p.maxAlerts) :
    ∃ p1, p.addAlert d s = .ok p1 ∧ p1.maxAlerts = p.maxAlerts ∧
      p1.alerts = (d :: p.alerts).take p.maxAlerts := by
  obtain ⟨p1, hp1, hmax, hal⟩ := addAlert_ok p d s h
  refine ⟨p1, hp1, hmax, ?_⟩
  rw [hal]
  split_ifs with hgt
  · apply dropLast_eq_take_of_length
    simp only [List.length_cons] at hgt ⊢
    omega
  · rw [List.take_of_length_le]
    simp only [List.length_cons] at hgt ⊢
    omega

/-- On a feed within its capacity, a sequence of `addAlert` calls with detections that
have coordinates leaves the first `maxAlerts` entries of the detections, newest first,
followed by the old entries. -/
theorem addAlerts_take (calls : List (Detection × Bool)) :
    ∀ p : CommandPanel, p.alerts.length ≤ p.maxAlerts →
      (∀ c ∈ calls, c.1.HasCoords) →
      (p.addAlerts calls).maxAlerts = p.maxAlerts ∧
        (p.addAlerts calls).alerts =
          ((calls.map Prod.fst).reverse ++ p.alerts).take p.maxAlerts := by
  induction calls with
  | nil =>
    intro p h _
    refine ⟨rfl, ?_⟩
    simp [addAlerts, List.take_of_length_le h]
  | cons c cs ih =>
    intro p h hc
    obtain ⟨p1, hp1, hmax, hal⟩ :=
      addAlert_take p c.1 c.2 (hc c (List.mem_cons_self _ _)) h
    have hafter : p.afterAddAlert c = p1 := by simp [afterAddAlert, hp1]
    have hlen1 : p1.alerts.length ≤ p1.maxAlerts := by
      rw [hal, hmax, List.length_take]
      exact Nat.min_le_left _ _
    obtain ⟨hmax2, hal2⟩ := ih p1 hlen1 (fun x hx => hc x (List.mem_cons_of_mem _ hx))
    have hstep : p.addAlerts (c :: cs) = p1.addAlerts cs := by
      simp [addAlerts, hafter]
    rw [hstep, hmax2, hal2, hmax, hal]
    refine ⟨rfl, ?_⟩
    simp only [List.map_cons, List.reverse_cons, List.append_assoc, List.singleton_append]
    exact take_append_take _ _ _

/-- C2: starting from a newly constructed panel (`alerts` empty, `maxAlerts = 20`), after
every finite sequence of `addAlert` calls, with any detections and any `playSound`
flags, `maxAlerts` is still 20 and `alerts` has at most 20 entries. -/
theorem alerts_length_le_maxAlerts (calls : List (Detection × Bool)) :
    (CommandPanel.new.addAlerts calls).maxAlerts = 20 ∧
      (CommandPanel.new.addAlerts calls).alerts.length ≤ 20 := by
  have h := addAlerts_bound calls CommandPanel.new (by simp [CommandPanel.new])
  simpa [CommandPanel.new] using h

/-- C3: starting from an empty alert feed, after `maxAlerts + 5` calls of `addAlert`
(`maxAlerts` being positive, as the constructor's 20 is) `alerts` has exactly
`maxAlerts` entries and its entry at index 0 is the detection of the last call. -/
theorem addAlerts_overflow (p : CommandPanel) (calls : List (Detection × Bool))
    (hempty : p.alerts = []) (hmax : 0 < p.maxAlerts)
    (hlen : calls.length = p.maxAlerts + 5) (hok : ∀ c ∈ calls, c.1.HasCoords) :
    (p.addAlerts calls).alerts.length = p.maxAlerts ∧
      ∃ d s, calls.getLast? = some (d, s) ∧ (p.addAlerts calls).alerts[0]? = some d := by
  obtain ⟨_, hal⟩ := addAlerts_take calls p (by simp [hempty]) hok
  rw [hal, hempty, List.append_nil]
  constructor
  · rw [List.length_take, List.length_reverse, List.length_map, hlen]
    omega
  · rcases List.eq_nil_or_concat calls with hnil | ⟨init, last, hcalls⟩
    · rw [hnil] at hlen
      simp at hlen
    · refine ⟨last.1, last.2, ?_, ?_⟩
      · simp [hcalls]
      · obtain ⟨n, hn⟩ : ∃ n, p.maxAlerts = n + 1 := ⟨p.maxAlerts - 1, by omega⟩
        simp [hcalls, hn]

/-- C3 at the newly constructed panel and 25 calls. -/
theorem addAlerts_overflow_witness :
    (CommandPanel.new.addAlerts (sampleCalls 25)).alerts.length = 20 ∧
      ∃ d s, (sampleCalls 25).getLast? = some (d, s) ∧
        (CommandPanel.new.addAlerts (sampleCalls 25)).alerts[0]? = some d :=
  addAlerts_overflow CommandPanel.new (sampleCalls 25) rfl (by decide) (by decide)
    (by decide)

/-- Every feed the panel reaches lies within its capacity, so `addAlert` with a
detection that has coordinates leaves there the first `maxAlerts` (20) entries of the
detection followed by the old entries. -/
theorem addAlert_reachable_take (calls : List (Detection × Bool)) (d : Detection) (s : Bool)
    (h : d.HasCoords) :
    ∃ p1, (CommandPanel.new.addAlerts calls).addAlert d s = .ok p1 ∧
      p1.alerts = (d :: (CommandPanel.new.addAlerts calls).alerts).take 20 := by
  obtain ⟨hmax, hlen⟩ := addAlerts_bound calls CommandPanel.new (by simp [CommandPanel.new])
  have hmax20 : (CommandPanel.new.addAlerts calls).maxAlerts = 20 := hmax
  obtain ⟨p1, hp1, _, hal⟩ :=
    addAlert_take (CommandPanel.new.addAlerts calls) d s h (by rw [hmax]; exact hlen)
  exact ⟨p1, hp1, by rw [hal, hmax20]⟩

/-- C4: for every alerts array within `maxAlerts`, as every array the panel reaches is
(`addAlerts_bound`, `addAlert_reachable_take`), and every detection with coordinates,
`addAlert` returns and leaves the first `maxAlerts` entries of the detection followed by
the old array: the detection at index 0, the old entries after it in their order, and
the last of them evicted when the array was full, so that the length is the smaller of
the old length plus one and `maxAlerts`. -/
theorem addAlert_front_evict (p : CommandPanel) (d : Detection) (s : Bool)
    (h : d.HasCoords) (hlen : p.alerts.length ≤ p.maxAlerts) :
    ∃ p1, p.addAlert d s = .ok p1 ∧
      p1.alerts = (d :: p.alerts).take p.maxAlerts ∧
      p1.alerts.length = min (p.alerts.length + 1) p.maxAlerts ∧
      (0 < p.maxAlerts → p1.alerts = d :: p.alerts.take (p.maxAlerts - 1)) := by
  obtain ⟨p1, hp1, _, hal⟩ := addAlert_take p d s h hlen
  refine ⟨p1, hp1, hal, ?_, ?_⟩
  · rw [hal, List.length_take, List.length_cons]
    exact Nat.min_comm _ _
  · intro hpos
    obtain ⟨n, hn⟩ : ∃ n, p.maxAlerts = n + 1 := ⟨p.maxAlerts - 1, by omega⟩
    rw [hal, hn]
    simp

/-- C4 at a full feed of 20 entries: a 21st detection evicts the oldest entry. -/
theorem addAlert_front_evict_witness :
    ∃ p1, (CommandPanel.new.addAlerts (sampleCalls 20)).addAlert
        (sampleDetection 20 lit050) false = .ok p1 ∧
      p1.alerts = (sampleDetection 20 lit050 ::
        (CommandPanel.new.addAlerts (sampleCalls 20)).alerts).take
          (CommandPanel.new.addAlerts (sampleCalls 20)).maxAlerts ∧
      p1.alerts.length = min ((CommandPanel.new.addAlerts (sampleCalls 20)).alerts.length + 1)
        (CommandPanel.new.addAlerts (sampleCalls 20)).maxAlerts ∧
      (0 < (CommandPanel.new.addAlerts (sampleCalls 20)).maxAlerts →
        p1.alerts = sampleDetection 20 lit050 ::
          (CommandPanel.new.addAlerts (sampleCalls 20)).alerts.take
            ((CommandPanel.new.addAlerts (sampleCalls 20)).maxAlerts - 1)) :=
  addAlert_front_evict (CommandPanel.new.addAlerts (sampleCalls 20))
    (sampleDetection 20 lit050) false (by decide) (by decide)

end CommandPanel

/-! ## The marker store: theorems -/

namespace TacticalMap

/-- `indexOf` finds nothing exactly when no entry is the given object. -/
theorem indexOf_eq_none (ms : List MarkerData) (md : MarkerData) :
    indexOf ms md = none ↔ ∀ m ∈ ms, m.ref ≠ md.ref := by
  induction ms with
  | nil => simp [indexOf]
  | cons a as ih =>
    by_cases hr : a.ref = md.ref
    · simp [indexOf, hr]
    · simp [indexOf, hr, ih]

/-- When `indexOf` finds an index, the entry there is the given object, no earlier
entry is, and `splice(index, 1)` removes just that entry. -/
theorem indexOf_eq_some (ms : List MarkerData) (md : MarkerData) :
    ∀ i, indexOf ms md = some i →
      ∃ pre m post, ms = pre ++ m :: post ∧ m.ref = md.ref ∧
        (∀ x ∈ pre, x.ref ≠ md.ref) ∧ ms.eraseIdx i = pre ++ post := by
  induction ms with
  | nil => intro i h; simp [indexOf] at h
  | cons a as ih =>
    intro i h
    by_cases hr : a.ref = md.ref
    · have hi : i = 0 := by simpa [indexOf, hr] using h.symm
      subst hi
      exact ⟨[], a, as, rfl, hr, by simp, rfl⟩
    · simp only [indexOf, hr, if_false, Option.map_eq_some'] at h
      obtain ⟨j, hj, rfl⟩ := h
      obtain ⟨pre, m, post, hms, hm, hpre, hers⟩ := ih j hj
      refine ⟨a :: pre, m, post, by simp [hms], hm, ?_, by simp [hers]⟩
      intro x hx
      rcases List.mem_cons.mp hx with rfl | hx
      · exact hr
      · exact hpre x hx

/-- What `removeMarker` does to `markers`: nothing when the object is not there;
otherwise the first entry that is the object is taken out and the rest keeps its
order. -/
theorem removeMarker_markers (t : TacticalMap) (md : MarkerData) (hmap : t.markers ≠ [] →
    t.map.isSome = true) :
    ∃ t1, t.removeMarker md = .ok t1 ∧
      (((∀ m ∈ t.markers, m.ref ≠ md.ref) ∧ t1 = t) ∨
       (t1.map.isSome = true ∧
        ∃ pre m post, t.markers = pre ++ m :: post ∧ m.ref = md.ref ∧
          (∀ x ∈ pre, x.ref ≠ md.ref) ∧ t1.markers = pre ++ post)) := by
  cases hidx : indexOf t.markers md with
  | none =>
    refine ⟨t, by simp [removeMarker, hidx], Or.inl ⟨?_, rfl⟩⟩
    exact (indexOf_eq_none _ _).mp hidx
  | some i =>
    obtain ⟨pre, m, post, hms, hm, hpre, hers⟩ := indexOf_eq_some _ _ i hidx
    have hne : t.markers ≠ [] := by rw [hms]; simp
    obtain ⟨lm, hlm⟩ := Option.isSome_iff_exists.mp (hmap hne)
    refine ⟨{ t with map := some (lm.removeLayer md.marker.handle),
                     markers := t.markers.eraseIdx i },
      by simp [removeMarker, hidx, hlm], Or.inr ⟨rfl, pre, m, post, hms, hm, hpre, hers⟩⟩

/-- Entries of a store whose objects are distinct are equal as soon as they are the same
object. -/
theorem eq_of_ref_eq {ms : List MarkerData} (hnd : (ms.map MarkerData.ref).Nodup)
    {a b : MarkerData} (ha : a ∈ ms) (hb : b ∈ ms) (h : a.ref = b.ref) : a = b :=
  List.inj_on_of_nodup_map hnd ha hb h

/-- The constructor establishes the store invariant. -/
theorem inv_new (containerId : String) (centerCoords : JSNum × JSNum) (zoom : Nat) :
    (TacticalMap.new containerId centerCoords zoom).Inv := by
  simp [TacticalMap.new, Inv]

/-- `init()` keeps the store invariant and makes the store ready. -/
theorem inv_init (t : TacticalMap) (env : Browser) (h : t.Inv) :
    (t.init env).1.Inv ∧ (t.init env).1.Ready := by
  refine ⟨⟨fun _ => rfl, h.2⟩, rfl⟩

/-- `removeMarker` keeps the store invariant. -/
theorem inv_removeMarker (t t1 : TacticalMap) (md : MarkerData) (h : t.Inv)
    (hrm : t.removeMarker md = .ok t1) : t1.Inv := by
  obtain ⟨t2, ht2, hcase⟩ := removeMarker_markers t md h.1
  rw [hrm] at ht2
  cases ht2
  rcases hcase with ⟨_, rfl⟩ | ⟨hsome, pre, m, post, hms, _, _, hers⟩
  · exact h
  · refine ⟨fun _ => hsome, ?_⟩
    have hsub : (t1.markers.map MarkerData.ref).Sublist (t.markers.map MarkerData.ref) := by
      rw [hms, hers]
      exact List.Sublist.map _ (List.Sublist.append_left (List.sublist_cons_self m post) pre)
    exact h.2.sublist hsub

/-- `clearAllMarkers` keeps the store invariant. -/
theorem inv_clearAllMarkers (t t1 : TacticalMap) (hcl : t.clearAllMarkers = .ok t1) :
    t1.Inv := by
  unfold clearAllMarkers at hcl
  split at hcl <;> cases hcl <;> simp [Inv]

/-- `addMarker` keeps the store invariant: the object it creates is new. -/
theorem inv_addMarker (t t1 : TacticalMap) (env env1 : Browser) (d : Detection)
    (hinv : t.Inv) (hfresh : ∀ m ∈ t.markers, m.ref < env.nextObj)
    (h : t.addMarker env d = .ok (t1, env1)) :
    t1.Inv ∧ ∀ m ∈ t1.markers, m.ref < env1.nextObj := by
  unfold addMarker at h
  split at h
  · cases h
  · split at h
    · cases h
    · simp only [Except.ok.injEq, Prod.mk.injEq] at h
      obtain ⟨rfl, rfl⟩ := h
      refine ⟨⟨fun _ => rfl, ?_⟩, ?_⟩
      · show ((t.markers ++ [_]).map MarkerData.ref).Nodup
        rw [List.map_append, List.map_cons, List.map_nil]
        apply List.Nodup.append hinv.2 (List.nodup_singleton _)
        intro r hr1 hr2
        obtain ⟨m, hm, rfl⟩ := List.mem_map.mp hr1
        have hlt := hfresh m hm
        rw [List.mem_singleton] at hr2
        simp only at hr2
        omega
      · intro m hm
        change m ∈ t.markers ++ [_] at hm
        show m.ref < env.nextObj + 2
        rcases List.mem_append.mp hm with hm | hm
        · have := hfresh m hm
          omega
        · rw [List.mem_singleton] at hm
          rw [hm]
          show env.nextObj + 1 < env.nextObj + 2
          omega

/-- A call of `addMarker` on a ready store with valid coordinates returns; it appends
one new `markerData` object for the detection and schedules one timeout for it. -/
theorem addMarker_ok (t : TacticalMap) (env : Browser) (d : Detection) (hready : t.Ready)
    (hd : d.ValidCoords) :
    ∃ t1 env1 md, t.addMarker env d = .ok (t1, env1) ∧
      md.ref = env.nextObj + 1 ∧ md.detection = d ∧ md.timestamp = env.now ∧
      t1.markers = t.markers ++ [md] ∧ t1.Ready ∧ t1.markerTimeout = t.markerTimeout ∧
      env1.timeouts = env.timeouts ++ [⟨env.now + t.markerTimeout, md⟩] ∧
      env1.nextObj = env.nextObj + 2 ∧ env1.now = env.now := by
  obtain ⟨lat, lon, hlat, hlon, hnlat, hnlon⟩ := hd
  obtain ⟨m, hm⟩ := Option.isSome_iff_exists.mp hready
  have hll : latLng? d = some (lat, lon) := by
    simp [latLng?, hlat, hlon, hnlat, hnlon]
  have hcall : t.addMarker env d = .ok
      ({ t with
          map := some (if isHigh d then (m.addLayer env.nextObj).panTo (lat, lon)
                       else m.addLayer env.nextObj),
          markers := t.markers ++ [⟨env.nextObj + 1,
            ⟨env.nextObj, (lat, lon), markerColor d, isHigh d⟩, env.now, d⟩] },
       { env with
          timeouts := env.timeouts ++ [⟨env.now + t.markerTimeout, ⟨env.nextObj + 1,
            ⟨env.nextObj, (lat, lon), markerColor d, isHigh d⟩, env.now, d⟩⟩],
          nextObj := env.nextObj + 2 }) := by
    simp only [addMarker, hll, hm]
  exact ⟨_, _, _, hcall, rfl, rfl, rfl, rfl, rfl, rfl, rfl, rfl, rfl⟩

/-- In a store whose markers are distinct objects, `removeMarker` returns a store that
holds no entry for the object, and returns the store itself when it held none. -/
theorem removeMarker_idempotent_aux (t : TacticalMap) (md : MarkerData) (hinv : t.Inv) :
    ∃ t1, t.removeMarker md = .ok t1 ∧ (∀ m ∈ t1.markers, m.ref ≠ md.ref) ∧
      ((∀ m ∈ t.markers, m.ref ≠ md.ref) → t1 = t) := by
  obtain ⟨t1, ht1, hcase⟩ := removeMarker_markers t md hinv.1
  rcases hcase with ⟨habs, rfl⟩ | ⟨_, pre, m, post, hms, hm, hpre, hers⟩
  · exact ⟨t1, ht1, habs, fun _ => rfl⟩
  · refine ⟨t1, ht1, ?_, ?_⟩
    · intro x hx
      rw [hers] at hx
      rcases List.mem_append.mp hx with hx | hx
      · exact hpre x hx
      · have hnd := hinv.2
        rw [hms, List.map_append, List.map_cons] at hnd
        have hmid := List.nodup_cons.mp (List.nodup_middle.mp hnd)
        intro hxr
        apply hmid.1
        rw [hm, ← hxr]
        exact List.mem_append_right _ (List.mem_map_of_mem _ hx)
    · intro habs
      exact absurd hm (habs m (by rw [hms]; simp))

/-- `removeMarker` of an object that is not in `markers` returns the store as it is. -/
theorem removeMarker_absent (t : TacticalMap) (md : MarkerData)
    (h : ∀ m ∈ t.markers, m.ref ≠ md.ref) : t.removeMarker md = .ok t := by
  simp [removeMarker, (indexOf_eq_none _ _).mpr h]

/-- The sample detections have valid coordinates. -/
theorem sampleDetection_validCoords (id : Nat) (q : ℚ) : (sampleDetection id q).ValidCoords :=
  ⟨_, _, rfl, rfl, rfl, rfl⟩

/-- C5: on an initialised store, `addMarker` of a detection (with valid coordinates)
whose identifier is not among the stored markers' detections returns, increases
`getMarkerCount()` by exactly 1, and leaves the stored markers as they were, the new
one coming after them. -/
theorem addMarker_new_identifier (t : TacticalMap) (env : Browser) (d : Detection)
    (hready : t.Ready) (hd : d.ValidCoords)
    (_hnew : ∀ m ∈ t.markers, m.detection.id ≠ d.id) :
    ∃ t1 env1 md, t.addMarker env d = .ok (t1, env1) ∧
      t1.getMarkerCount = t.getMarkerCount + 1 ∧
      t1.markers = t.markers ++ [md] ∧ md.detection = d := by
  obtain ⟨t1, env1, md, hcall, _, hdet, _, hms, _⟩ := addMarker_ok t env d hready hd
  exact ⟨t1, env1, md, hcall, by simp [getMarkerCount, hms], hms, hdet⟩

/-- C5 at the store of `oneMarkerWorld` and a detection with the unseen identifier 8. -/
theorem addMarker_new_identifier_witness :
    ∃ t1 env1 md, oneMarkerWorld.tmap.addMarker oneMarkerWorld.env
        (sampleDetection 8 lit050) = .ok (t1, env1) ∧
      t1.getMarkerCount = oneMarkerWorld.tmap.getMarkerCount + 1 ∧
      t1.markers = oneMarkerWorld.tmap.markers ++ [md] ∧
      md.detection = sampleDetection 8 lit050 :=
  addMarker_new_identifier oneMarkerWorld.tmap oneMarkerWorld.env (sampleDetection 8 lit050)
    rfl (sampleDetection_validCoords 8 lit050) (by decide)

/-- C6, as stated, fails: the store of `oneMarkerWorld` holds one marker for identifier
7, and `addMarker` of a detection with identifier 7 increases the count from 1 to 2 and
leaves two markers whose detections share the identifier. -/
theorem addMarker_duplicate_counterexample :
    (oneMarkerWorld.tmap.markersOf 7).length = 1 ∧
    ∃ t1 env1, oneMarkerWorld.tmap.addMarker oneMarkerWorld.env
        (sampleDetection 7 lit090) = .ok (t1, env1) ∧
      oneMarkerWorld.tmap.getMarkerCount = 1 ∧ t1.getMarkerCount = 2 ∧
      (t1.markersOf 7).length = 2 := by
  refine ⟨by decide, _, _, rfl, ?_, ?_, ?_⟩ <;> decide

/-- C6, amended: on an initialised store that already holds a marker for identifier `i`,
`addMarker` of a detection (with valid coordinates) with the same identifier returns and
increases `getMarkerCount()` by exactly 1; the store then holds one more marker for `i`
than before, hence at least two. -/
theorem addMarker_same_identifier (t : TacticalMap) (env : Browser) (d : Detection)
    (hready : t.Ready) (hd : d.ValidCoords)
    (hold : ∃ m ∈ t.markers, m.detection.id = d.id) :
    ∃ t1 env1, t.addMarker env d = .ok (t1, env1) ∧
      t1.getMarkerCount = t.getMarkerCount + 1 ∧
      (t1.markersOf d.id).length = (t.markersOf d.id).length + 1 ∧
      2 ≤ (t1.markersOf d.id).length := by
  obtain ⟨t1, env1, md, hcall, _, hdet, _, hms, _⟩ := addMarker_ok t env d hready hd
  have hcount : (t1.markersOf d.id).length = (t.markersOf d.id).length + 1 := by
    simp [markersOf, hms, List.filter_append, List.filter_cons, hdet]
  have hpos : 0 < (t.markersOf d.id).length := by
    obtain ⟨m, hm, hid⟩ := hold
    have hin : m ∈ t.markersOf d.id := by
      simp [markersOf, List.mem_filter, hm, hid]
    exact List.length_pos_of_mem hin
  exact ⟨t1, env1, hcall, by simp [getMarkerCount, hms], hcount, by omega⟩

/-- C6, amended, at the store of `oneMarkerWorld` and a second detection with
identifier 7. -/
theorem addMarker_same_identifier_witness :
    ∃ t1 env1, oneMarkerWorld.tmap.addMarker oneMarkerWorld.env
        (sampleDetection 7 lit050) = .ok (t1, env1) ∧
      t1.getMarkerCount = oneMarkerWorld.tmap.getMarkerCount + 1 ∧
      (t1.markersOf (sampleDetection 7 lit050).id).length =
        (oneMarkerWorld.tmap.markersOf (sampleDetection 7 lit050).id).length + 1 ∧
      2 ≤ (t1.markersOf (sampleDetection 7 lit050).id).length :=
  addMarker_same_identifier oneMarkerWorld.tmap oneMarkerWorld.env (sampleDetection 7 lit050)
    rfl (sampleDetection_validCoords 7 lit050) ⟨sampleMarker, List.Mem.head _, rfl⟩

/-- C8: in a store whose markers were created through `addMarker`, `removeMarker` of a
`markerData` that is in `markers` returns, decreases `getMarkerCount()` by exactly 1,
removes exactly that entry, and keeps all other entries in their order. -/
theorem removeMarker_removes_entry (t : TacticalMap) (md : MarkerData) (hinv : t.Inv)
    (hmem : md ∈ t.markers) :
    ∃ t1, t.removeMarker md = .ok t1 ∧
      t1.getMarkerCount + 1 = t.getMarkerCount ∧
      ∃ pre post, t.markers = pre ++ md :: post ∧ t1.markers = pre ++ post ∧
        md ∉ t1.markers := by
  obtain ⟨t1, ht1, hcase⟩ := removeMarker_markers t md hinv.1
  rcases hcase with ⟨habs, _⟩ | ⟨_, pre, m, post, hms, hm, _, hers⟩
  · exact absurd rfl (habs md hmem)
  · have hmd : m = md := eq_of_ref_eq hinv.2 (by rw [hms]; simp) hmem hm
    subst hmd
    have hnd : (pre ++ m :: post).Nodup := by
      rw [← hms]; exact List.Nodup.of_map _ hinv.2
    have hnot : m ∉ pre ++ post := (List.nodup_cons.mp (List.nodup_middle.mp hnd)).1
    refine ⟨t1, ht1, ?_, pre, post, hms, hers, by rw [hers]; exact hnot⟩
    simp [getMarkerCount, hms, hers]
    omega

/-- C8 at the store of `oneMarkerWorld` and its one marker. -/
theorem removeMarker_removes_entry_witness :
    ∃ t1, oneMarkerWorld.tmap.removeMarker sampleMarker = .ok t1 ∧
      t1.getMarkerCount + 1 = oneMarkerWorld.tmap.getMarkerCount ∧
      ∃ pre post, oneMarkerWorld.tmap.markers = pre ++ sampleMarker :: post ∧
        t1.markers = pre ++ post ∧ sampleMarker ∉ t1.markers :=
  removeMarker_removes_entry oneMarkerWorld.tmap sampleMarker (by decide) (List.Mem.head _)

/-- C9: in a store whose markers were created through `addMarker`, `removeMarker`
returns without an error, a second call with the same `markerData` returns the store
the first call left, and a call for a `markerData` that is not in `markers` returns the
store unchanged. -/
theorem removeMarker_idempotent (t : TacticalMap) (md : MarkerData) (hinv : t.Inv) :
    ∃ t1, t.removeMarker md = .ok t1 ∧ t1.removeMarker md = .ok t1 ∧
      ((∀ m ∈ t.markers, m.ref ≠ md.ref) → t1 = t) := by
  obtain ⟨t1, ht1, hgone, hsame⟩ := removeMarker_idempotent_aux t md hinv
  exact ⟨t1, ht1, removeMarker_absent t1 md hgone, hsame⟩

/-- C9 at the store of `oneMarkerWorld` and its one marker. -/
theorem removeMarker_idempotent_witness :
    ∃ t1, oneMarkerWorld.tmap.removeMarker sampleMarker = .ok t1 ∧
      t1.removeMarker sampleMarker = .ok t1 ∧
      ((∀ m ∈ oneMarkerWorld.tmap.markers, m.ref ≠ sampleMarker.ref) →
        t1 = oneMarkerWorld.tmap) :=
  removeMarker_idempotent oneMarkerWorld.tmap sampleMarker (by decide)

/-- C10: in a store whose markers were created through `addMarker`, however many there
are, `clearAllMarkers()` returns and `getMarkerCount()` is 0 afterwards. -/
theorem clearAllMarkers_count_zero (t : TacticalMap) (hinv : t.Inv) :
    ∃ t1, t.clearAllMarkers = .ok t1 ∧ t1.getMarkerCount = 0 := by
  cases hms : t.markers with
  | nil => exact ⟨{ t with markers := [] }, by simp [clearAllMarkers, hms], rfl⟩
  | cons a as =>
    obtain ⟨m, hm⟩ := Option.isSome_iff_exists.mp (hinv.1 (by simp [hms]))
    exact ⟨{ t with map := some ((a :: as).foldl
        (fun acc md => acc.removeLayer md.marker.handle) m), markers := [] },
      by simp [clearAllMarkers, hms, hm], rfl⟩

/-- C10 at the store of `twoMarkerWorld`, which holds two markers. -/
theorem clearAllMarkers_count_zero_witness :
    twoMarkerWorld.tmap.getMarkerCount = 2 ∧
      ∃ t1, twoMarkerWorld.tmap.clearAllMarkers = .ok t1 ∧ t1.getMarkerCount = 0 :=
  ⟨by decide, clearAllMarkers_count_zero twoMarkerWorld.tmap (by decide)⟩

end TacticalMap

/-! ## Timeouts: theorems -/

namespace World

open TacticalMap

/-- `removeMarker` changes neither `markerTimeout` nor the readiness of the store. -/
theorem removeMarker_fields (t t1 : TacticalMap) (md : MarkerData)
    (h : t.removeMarker md = .ok t1) :
    t1.markerTimeout = t.markerTimeout ∧ (t.Ready → t1.Ready) := by
  unfold removeMarker at h
  split at h
  · cases h; exact ⟨rfl, id⟩
  · split at h
    · cases h
    · cases h; exact ⟨rfl, fun _ => rfl⟩

/-- A fired timeout runs `removeMarker`, which returns on a store that satisfies the
invariant. -/
theorem fire_eq (t : TacticalMap) (x : Timeout) (h : t.Inv) :
    t.removeMarker x.markerData = .ok (fire t x) := by
  obtain ⟨t1, ht1, _⟩ := removeMarker_markers t x.markerData h.1
  simp [fire, ht1]

/-- A fired timeout keeps the invariant, the readiness and `markerTimeout`. -/
theorem fire_inv (t : TacticalMap) (x : Timeout) (h : t.Inv) :
    (fire t x).Inv ∧ (t.Ready → (fire t x).Ready) ∧
      (fire t x).markerTimeout = t.markerTimeout := by
  have heq := fire_eq t x h
  obtain ⟨hto, hready⟩ := removeMarker_fields _ _ _ heq
  exact ⟨inv_removeMarker _ _ _ h heq, hready, hto⟩

/-- A fired timeout adds no marker. -/
theorem fire_subset (t : TacticalMap) (x : Timeout) (h : t.Inv) (md : MarkerData)
    (hmd : md ∈ (fire t x).markers) : md ∈ t.markers := by
  obtain ⟨t1, ht1, hcase⟩ := removeMarker_markers t x.markerData h.1
  rw [fire_eq t x h] at ht1
  cases ht1
  rcases hcase with ⟨_, heq⟩ | ⟨_, pre, m, post, hms, _, _, hers⟩
  · rw [heq] at hmd; exact hmd
  · rw [hers] at hmd
    rw [hms]
    rcases List.mem_append.mp hmd with hx | hx
    · exact List.mem_append_left _ hx
    · exact List.mem_append_right _ (List.mem_cons_of_mem _ hx)

/-- A fired timeout keeps every marker that is another object than its own. -/
theorem fire_keeps (t : TacticalMap) (x : Timeout) (h : t.Inv) (md : MarkerData)
    (hmd : md ∈ t.markers) (hne : x.markerData.ref ≠ md.ref) : md ∈ (fire t x).markers := by
  obtain ⟨t1, ht1, hcase⟩ := removeMarker_markers t x.markerData h.1
  rw [fire_eq t x h] at ht1
  cases ht1
  rcases hcase with ⟨_, heq⟩ | ⟨_, pre, m, post, hms, hm, _, hers⟩
  · rw [heq]; exact hmd
  · rw [hers]
    rw [hms] at hmd
    rcases List.mem_append.mp hmd with hx | hx
    · exact List.mem_append_left _ hx
    · rcases List.mem_cons.mp hx with rfl | hx
      · exact absurd hm.symm hne
      · exact List.mem_append_right _ hx

/-- After a timeout has fired, its own marker is not in the store. -/
theorem fire_removes (t : TacticalMap) (x : Timeout) (h : t.Inv) :
    ∀ m ∈ (fire t x).markers, m.ref ≠ x.markerData.ref := by
  obtain ⟨t1, ht1, hidem, _⟩ := removeMarker_idempotent_aux t x.markerData h
  rw [fire_eq t x h] at ht1
  cases ht1
  exact hidem

/-- Firing a list of timeouts keeps the invariant, the readiness and `markerTimeout`. -/
theorem foldl_fire_inv (xs : List Timeout) :
    ∀ t : TacticalMap, t.Inv →
      (xs.foldl fire t).Inv ∧ (t.Ready → (xs.foldl fire t).Ready) ∧
        (xs.foldl fire t).markerTimeout = t.markerTimeout := by
  induction xs with
  | nil => intro t h; exact ⟨h, id, rfl⟩
  | cons x xs ih =>
    intro t h
    obtain ⟨h1, hr1, hto1⟩ := fire_inv t x h
    obtain ⟨h2, hr2, hto2⟩ := ih (fire t x) h1
    exact ⟨h2, fun hr => hr2 (hr1 hr), by rw [List.foldl_cons, hto2, hto1]⟩

/-- Firing a list of timeouts adds no marker. -/
theorem foldl_fire_subset (xs : List Timeout) :
    ∀ t : TacticalMap, t.Inv → ∀ md, md ∈ (xs.foldl fire t).markers → md ∈ t.markers := by
  induction xs with
  | nil => intro t _ md h; exact h
  | cons x xs ih =>
    intro t h md hmd
    exact fire_subset t x h md (ih (fire t x) (fire_inv t x h).1 md hmd)

/-- Firing a list of timeouts keeps every marker that none of them holds. -/
theorem foldl_fire_keeps (xs : List Timeout) :
    ∀ t : TacticalMap, t.Inv → ∀ md, md ∈ t.markers →
      (∀ x ∈ xs, x.markerData.ref ≠ md.ref) → md ∈ (xs.foldl fire t).markers := by
  induction xs with
  | nil => intro t _ md h _; exact h
  | cons x xs ih =>
    intro t h md hmd hne
    exact ih (fire t x) (fire_inv t x h).1 md
      (fire_keeps t x h md hmd (hne x (List.mem_cons_self _ _)))
      (fun y hy => hne y (List.mem_cons_of_mem _ hy))

/-- After a list of timeouts has fired, the marker of each of them is not in the
store. -/
theorem foldl_fire_removes (xs : List Timeout) :
    ∀ t : TacticalMap, t.Inv → ∀ x ∈ xs,
      ∀ m ∈ (xs.foldl fire t).markers, m.ref ≠ x.markerData.ref := by
  induction xs with
  | nil => intro t _ x hx; simp at hx
  | cons y ys ih =>
    intro t h x hx m hm
    rcases List.mem_cons.mp hx with rfl | hx
    · exact fire_removes t x h m (foldl_fire_subset ys (fire t x) (fire_inv t x h).1 m hm)
    · exact ih (fire t y) (fire_inv t y h).1 x hx m hm

/-- The timeouts that fire when the clock reaches `time` are the pending ones due by
then. -/
theorem mem_due (env : Browser) (time : Nat) (x : Timeout) :
    x ∈ due env time ↔ x ∈ env.timeouts ∧ x.fireAt ≤ time := by
  simp [due, List.mem_insertionSort, List.mem_filter]

/-- Advancing the clock keeps well-formedness, readiness, `markerTimeout` and the
object supply, and sets the clock. -/
theorem advance_wf (w : World) (time : Nat) (h : w.WF) :
    (w.advance time).WF ∧ (w.tmap.Ready → (w.advance time).tmap.Ready) ∧
      (w.advance time).tmap.markerTimeout = w.tmap.markerTimeout ∧
      (w.advance time).env.nextObj = w.env.nextObj ∧
      (w.advance time).env.now = max w.env.now time := by
  obtain ⟨hinv, hms, hts⟩ := h
  obtain ⟨h1, h2, h3⟩ := foldl_fire_inv (due w.env time) w.tmap hinv
  refine ⟨⟨h1, ?_, ?_⟩, h2, h3, rfl, rfl⟩
  · intro m hm
    exact hms m (foldl_fire_subset (due w.env time) w.tmap hinv m hm)
  · intro x hx
    exact hts x (List.mem_of_mem_filter hx)

/-- The timeouts still pending after the clock has advanced are those due later. -/
theorem mem_advance_timeouts (w : World) (time : Nat) (x : Timeout) :
    x ∈ (w.advance time).env.timeouts ↔ x ∈ w.env.timeouts ∧ time < x.fireAt := by
  simp [advance, List.mem_filter]

/-- Advancing the clock keeps a marker that no timeout due by then holds. -/
theorem advance_keeps (w : World) (time : Nat) (h : w.WF) (md : MarkerData)
    (hmd : md ∈ w.tmap.markers)
    (hne : ∀ x ∈ w.env.timeouts, x.fireAt ≤ time → x.markerData.ref ≠ md.ref) :
    md ∈ (w.advance time).tmap.markers :=
  foldl_fire_keeps (due w.env time) w.tmap h.1 md hmd
    (fun x hx => hne x ((mem_due _ _ _).mp hx).1 ((mem_due _ _ _).mp hx).2)

/-- Advancing the clock to or past the time of a pending timeout removes its marker. -/
theorem advance_removes (w : World) (time : Nat) (h : w.WF) (x : Timeout)
    (hx : x ∈ w.env.timeouts) (hdue : x.fireAt ≤ time) :
    ∀ m ∈ (w.advance time).tmap.markers, m.ref ≠ x.markerData.ref :=
  foldl_fire_removes (due w.env time) w.tmap h.1 x ((mem_due _ _ _).mpr ⟨hx, hdue⟩)

/-- The life of a marker: with its timeout pending for the time `f`, and no timeout for
the same object due before `f`, the marker is in the store at every time before `f`
and in no store from `f` on. -/
theorem marker_lifetime (w : World) (h : w.WF) (md : MarkerData) (f : Nat)
    (hmd : md ∈ w.tmap.markers) (hx : (⟨f, md⟩ : Timeout) ∈ w.env.timeouts)
    (honly : ∀ y ∈ w.env.timeouts, y.markerData.ref = md.ref → f ≤ y.fireAt) (time : Nat) :
    (time < f → md ∈ (w.advance time).tmap.markers) ∧
      (f ≤ time → md ∉ (w.advance time).tmap.markers) := by
  constructor
  · intro hlt
    apply advance_keeps w time h md hmd
    intro y hy hdue href
    have := honly y hy href
    omega
  · intro hle hmem
    exact advance_removes w time h ⟨f, md⟩ hx hle md hmem rfl

/-- The event `addMarker(detection)` at time `time` on a well-formed, ready world with a
detection that has valid coordinates: the clock advances, one new `markerData` object
is appended and one timeout for it is scheduled `markerTimeout` ahead. -/
theorem insertAt_ok (w : World) (time : Nat) (d : Detection) (h : w.WF)
    (hready : w.tmap.Ready) (hd : d.ValidCoords) :
    ∃ md : MarkerData, md.ref = w.env.nextObj + 1 ∧ md.detection = d ∧
      md.timestamp = max w.env.now time ∧
      (w.insertAt time d).tmap.markers = (w.advance time).tmap.markers ++ [md] ∧
      (w.insertAt time d).env.timeouts = (w.advance time).env.timeouts ++
        [⟨max w.env.now time + w.tmap.markerTimeout, md⟩] ∧
      (w.insertAt time d).env.nextObj = w.env.nextObj + 2 ∧
      (w.insertAt time d).env.now = max w.env.now time ∧
      (w.insertAt time d).tmap.markerTimeout = w.tmap.markerTimeout ∧
      (w.insertAt time d).tmap.Ready ∧ (w.insertAt time d).WF := by
  obtain ⟨⟨hinv, hms, hts⟩, hr, hto, hnext, hnow⟩ := advance_wf w time h
  obtain ⟨t1, env1, md, hcall, href, hdet, hstamp, hmarkers, hready1, hto1, htimeouts,
    hnext1, hnow1⟩ := addMarker_ok (w.advance time).tmap (w.advance time).env d (hr hready) hd
  have hins : w.insertAt time d = { tmap := t1, env := env1 } := by
    simp [insertAt, hcall]
  rw [hins]
  rw [hnext] at href hnext1
  rw [hnow] at hstamp hnow1 htimeouts
  rw [hto] at hto1 htimeouts
  refine ⟨md, href, hdet, hstamp, hmarkers, htimeouts, hnext1, hnow1, hto1, hready1, ?_⟩
  refine ⟨⟨fun _ => hready1, ?_⟩, ?_, ?_⟩
  · show (t1.markers.map MarkerData.ref).Nodup
    rw [hmarkers, List.map_append, List.map_cons, List.map_nil]
    apply List.Nodup.append hinv.2 (List.nodup_singleton _)
    intro r hr1 hr2
    obtain ⟨m, hm, rfl⟩ := List.mem_map.mp hr1
    have hlt := hms m hm
    rw [List.mem_singleton] at hr2
    rw [hnext] at hlt
    omega
  · intro m hm
    show m.ref < env1.nextObj
    rw [hnext1]
    change m ∈ t1.markers at hm
    rw [hmarkers] at hm
    rcases List.mem_append.mp hm with hm | hm
    · have := hms m hm
      rw [hnext] at this
      omega
    · rw [List.mem_singleton] at hm
      rw [hm, href]
      omega
  · intro x hx
    show x.markerData.ref < env1.nextObj
    rw [hnext1]
    change x ∈ env1.timeouts at hx
    rw [htimeouts] at hx
    rcases List.mem_append.mp hx with hx | hx
    · have := hts x hx
      rw [hnext] at this
      omega
    · rw [List.mem_singleton] at hx
      rw [hx]
      show md.ref < _
      rw [href]
      omega

/-- A freshly initialised store is well-formed and ready. -/
theorem start_wf (now : Nat) : (start now).WF ∧ (start now).tmap.Ready := by
  refine ⟨⟨⟨fun _ => rfl, ?_⟩, ?_, ?_⟩, rfl⟩
  · exact List.nodup_nil
  · intro m hm; cases hm
  · intro x hx; cases hx

/-- C7, as stated, fails: a detection with identifier 7 is inserted at time 0 and again
at time 1000, with `markerTimeout = 300000`. Both timeouts stay pending, for the times
300000 and 301000; the store holds two markers for 7 until time 299999, and at time
300000, the first insertion's expiry, one of them is removed. -/
theorem reinsert_not_cancelled_counterexample :
    twoMarkerWorld.tmap.markerTimeout = 300000 ∧
    twoMarkerWorld.env.timeouts.map Timeout.fireAt = [300000, 301000] ∧
    ((twoMarkerWorld.advance 299999).tmap.markersOf 7).length = 2 ∧
    ((twoMarkerWorld.advance 300000).tmap.markersOf 7).length = 1 ∧
    ((twoMarkerWorld.advance 301000).tmap.markersOf 7).length = 0 := by
  refine ⟨by decide, by decide, by decide, by decide, by decide⟩

/-- C7, amended: when a detection with identifier `i` is inserted at time `t0` and a
detection with the same identifier at a later time `t1 < t0 + markerTimeout`, each
insertion creates its own marker and its own timeout, and none is cancelled: both
timeouts are pending after the second insertion, the marker of the first insertion is
in the store at every time before `t0 + markerTimeout` and in no store from then on,
and the marker of the second insertion is in the store at every time before
`t1 + markerTimeout` and in no store from then on. -/
theorem reinsert_keeps_both_expiries (w : World) (d0 d1 : Detection) (i t0 t1 : Nat)
    (hwf : w.WF) (hready : w.tmap.Ready) (hnow : w.env.now ≤ t0) (h01 : t0 < t1)
    (h1 : t1 < t0 + w.tmap.markerTimeout) (hd0 : d0.ValidCoords) (hd1 : d1.ValidCoords)
    (hi0 : d0.id = i) (hi1 : d1.id = i) :
    ∃ md0 md1 : MarkerData,
      md0.detection.id = i ∧ md1.detection.id = i ∧ md0.ref ≠ md1.ref ∧
      (⟨t0 + w.tmap.markerTimeout, md0⟩ : Timeout) ∈
        ((w.insertAt t0 d0).insertAt t1 d1).env.timeouts ∧
      (⟨t1 + w.tmap.markerTimeout, md1⟩ : Timeout) ∈
        ((w.insertAt t0 d0).insertAt t1 d1).env.timeouts ∧
      ∀ time,
        (time < t0 + w.tmap.markerTimeout →
          md0 ∈ (((w.insertAt t0 d0).insertAt t1 d1).advance time).tmap.markers) ∧
        (t0 + w.tmap.markerTimeout ≤ time →
          md0 ∉ (((w.insertAt t0 d0).insertAt t1 d1).advance time).tmap.markers) ∧
        (time < t1 + w.tmap.markerTimeout →
          md1 ∈ (((w.insertAt t0 d0).insertAt t1 d1).advance time).tmap.markers) ∧
        (t1 + w.tmap.markerTimeout ≤ time →
          md1 ∉ (((w.insertAt t0 d0).insertAt t1 d1).advance time).tmap.markers) := by
  obtain ⟨md0, href0, hdet0, _, hm0, hto0, hnx0, hnow0, hTTL0, hr0, hwf0⟩ :=
    insertAt_ok w t0 d0 hwf hready hd0
  obtain ⟨md1, href1, hdet1, _, hm1, hto1, _, _, _, _, hwf1⟩ :=
    insertAt_ok (w.insertAt t0 d0) t1 d1 hwf0 hr0 hd1
  obtain ⟨⟨_, _, htsA⟩, _, _, hnxA, _⟩ := advance_wf w t0 hwf
  have hmax0 : max w.env.now t0 = t0 := max_eq_right hnow
  have hmax1 : max (w.insertAt t0 d0).env.now t1 = t1 := by
    rw [hnow0, hmax0]; exact max_eq_right (Nat.le_of_lt h01)
  rw [hmax0] at hto0
  rw [hmax1, hTTL0] at hto1
  rw [hnx0] at href1
  -- the timeouts pending after the first insertion
  have hpend1 : ∀ y ∈ (w.insertAt t0 d0).env.timeouts,
      y.markerData.ref < w.env.nextObj ∨ y = ⟨t0 + w.tmap.markerTimeout, md0⟩ := by
    intro y hy
    rw [hto0] at hy
    rcases List.mem_append.mp hy with hy | hy
    · left; have := htsA y hy; rw [hnxA] at this; exact this
    · right; exact List.mem_singleton.mp hy
  -- the timeouts pending after the second insertion
  have hpend2 : ∀ y ∈ ((w.insertAt t0 d0).insertAt t1 d1).env.timeouts,
      y.markerData.ref < w.env.nextObj ∨ y = ⟨t0 + w.tmap.markerTimeout, md0⟩ ∨
        y = ⟨t1 + w.tmap.markerTimeout, md1⟩ := by
    intro y hy
    rw [hto1] at hy
    rcases List.mem_append.mp hy with hy | hy
    · rcases hpend1 y ((mem_advance_timeouts _ _ _).mp hy).1 with h | h
      · exact Or.inl h
      · exact Or.inr (Or.inl h)
    · exact Or.inr (Or.inr (List.mem_singleton.mp hy))
  have hx0 : (⟨t0 + w.tmap.markerTimeout, md0⟩ : Timeout) ∈
      ((w.insertAt t0 d0).insertAt t1 d1).env.timeouts := by
    rw [hto1]
    apply List.mem_append_left
    rw [mem_advance_timeouts]
    exact ⟨by rw [hto0]; simp, h1⟩
  have hx1 : (⟨t1 + w.tmap.markerTimeout, md1⟩ : Timeout) ∈
      ((w.insertAt t0 d0).insertAt t1 d1).env.timeouts := by
    rw [hto1]; simp
  have hmem0 : md0 ∈ ((w.insertAt t0 d0).insertAt t1 d1).tmap.markers := by
    rw [hm1]
    apply List.mem_append_left
    apply advance_keeps _ _ hwf0 md0 (by rw [hm0]; simp)
    intro y hy hdue
    rcases hpend1 y hy with h | h
    · omega
    · rw [h] at hdue
      simp only at hdue
      omega
  have hmem1 : md1 ∈ ((w.insertAt t0 d0).insertAt t1 d1).tmap.markers := by
    rw [hm1]; simp
  have honly0 : ∀ y ∈ ((w.insertAt t0 d0).insertAt t1 d1).env.timeouts,
      y.markerData.ref = md0.ref → t0 + w.tmap.markerTimeout ≤ y.fireAt := by
    intro y hy hr
    rcases hpend2 y hy with h | h | h
    · omega
    · rw [h]
    · rw [h] at hr; simp only at hr; omega
  have honly1 : ∀ y ∈ ((w.insertAt t0 d0).insertAt t1 d1).env.timeouts,
      y.markerData.ref = md1.ref → t1 + w.tmap.markerTimeout ≤ y.fireAt := by
    intro y hy hr
    rcases hpend2 y hy with h | h | h
    · omega
    · rw [h] at hr; simp only at hr; omega
    · rw [h]
  refine ⟨md0, md1, by rw [hdet0, hi0], by rw [hdet1, hi1], by omega, hx0, hx1, ?_⟩
  intro time
  obtain ⟨ha, hb⟩ := marker_lifetime _ hwf1 md0 _ hmem0 hx0 honly0 time
  obtain ⟨hc, hd⟩ := marker_lifetime _ hwf1 md1 _ hmem1 hx1 honly1 time
  exact ⟨ha, hb, hc, hd⟩

/-- C7, amended, at a freshly initialised store, identifier 7, `t0 = 0` and
`t1 = 1000`. -/
theorem reinsert_keeps_both_expiries_witness :
    ∃ md0 md1 : MarkerData,
      md0.detection.id = 7 ∧ md1.detection.id = 7 ∧ md0.ref ≠ md1.ref ∧
      (⟨300000, md0⟩ : Timeout) ∈ twoMarkerWorld.env.timeouts ∧
      (⟨301000, md1⟩ : Timeout) ∈ twoMarkerWorld.env.timeouts ∧
      ∀ time,
        (time < 300000 → md0 ∈ (twoMarkerWorld.advance time).tmap.markers) ∧
        (300000 ≤ time → md0 ∉ (twoMarkerWorld.advance time).tmap.markers) ∧
        (time < 301000 → md1 ∈ (twoMarkerWorld.advance time).tmap.markers) ∧
        (301000 ≤ time → md1 ∉ (twoMarkerWorld.advance time).tmap.markers) :=
  reinsert_keeps_both_expiries (World.start 0) (sampleDetection 7 lit090)
    (sampleDetection 7 lit090) 7 0 1000 (start_wf 0).1 (start_wf 0).2 (by decide)
    (by decide) (by decide) (sampleDetection_validCoords 7 lit090)
    (sampleDetection_validCoords 7 lit090) rfl rfl

end World

/-! ## Marker tiers: theorems -/

namespace TacticalMap

/-- The two tests of `addMarker` in terms of the tier derived from the confidence. -/
theorem getAlertLevel_cases (c : JSNum) :
    (c.ge (.fin lit085) = true ∧ CommandPanel.getAlertLevel c = Tier.HIGH) ∨
    (c.ge (.fin lit085) = false ∧ c.ge (.fin lit070) = true ∧
      CommandPanel.getAlertLevel c = Tier.MEDIUM) ∨
    (c.ge (.fin lit085) = false ∧ c.ge (.fin lit070) = false ∧
      CommandPanel.getAlertLevel c = Tier.LOW) := by
  cases h85 : c.ge (.fin lit085) <;> cases h70 : c.ge (.fin lit070) <;>
    simp [CommandPanel.getAlertLevel, h85, h70]

/-- The colour of the marker that a returning `addMarker` pushes is `markerColor` of the
detection. -/
theorem addMarker_fillColor (t t1 : TacticalMap) (env env1 : Browser) (d : Detection)
    (h : t.addMarker env d = .ok (t1, env1)) :
    ∃ md, t1.markers = t.markers ++ [md] ∧ md.detection = d ∧
      md.marker.fillColor = markerColor d := by
  unfold addMarker at h
  split at h
  · cases h
  · split at h
    · cases h
    · simp only [Except.ok.injEq, Prod.mk.injEq] at h
      obtain ⟨rfl, rfl⟩ := h
      exact ⟨_, rfl, rfl, rfl⟩

/-- The tier of the marker colour as a case distinction on the supplied `alert_level`
and the confidence. -/
theorem colorTier_markerColor (d : Detection) :
    colorTier (markerColor d) =
      some (if d.alert_level = some "HIGH" then Tier.HIGH
            else if d.confidence.ge (.fin lit085) = true then Tier.HIGH
            else if d.alert_level = some "MEDIUM" then Tier.MEDIUM
            else if d.confidence.ge (.fin lit070) = true then Tier.MEDIUM
            else Tier.LOW) := by
  unfold markerColor isHigh isMedium
  by_cases hH : d.alert_level = some "HIGH"
  · simp [hH, colorTier]
  · by_cases h85 : d.confidence.ge (.fin lit085) = true
    · simp [hH, h85, colorTier]
    · by_cases hM : d.alert_level = some "MEDIUM"
      · simp [hM, h85, colorTier]
      · by_cases h70 : d.confidence.ge (.fin lit070) = true
        · simp [hH, hM, h85, h70, colorTier]
        · simp [hH, hM, h85, h70, colorTier]

/-- C11, as stated, fails: a detection with the supplied `alert_level` `'LOW'` and the
confidence `0.90` gets the red marker of `HIGH`, not the green one of `LOW`. -/
theorem alert_level_override_counterexample :
    lowLevelHighConfidence.alert_level = some Tier.LOW.toString ∧
    markerColor lowLevelHighConfidence = "#ff4444" ∧
    colorTier (markerColor lowLevelHighConfidence) = some Tier.HIGH ∧
    colorTier (markerColor lowLevelHighConfidence) ≠ some Tier.LOW := by
  have hc : markerColor lowLevelHighConfidence = "#ff4444" := by
    simp [markerColor, isHigh, lowLevelHighConfidence, sampleDetection, JSNum.ge, lit085,
      lit090]
    norm_num
  refine ⟨rfl, hc, ?_, ?_⟩
  · rw [hc]; decide
  · rw [hc]; decide

/-- C11, amended: for a detection that carries a supplied `alert_level`, the marker tier
is `HIGH` when the level is `'HIGH'`, whatever the confidence; with the level `'MEDIUM'`
it is `HIGH` when `confidence >= 0.85` and `MEDIUM` otherwise; with the level `'LOW'` it
is the tier derived from the confidence. The confidence thresholds are thus used also
when a level is supplied. -/
theorem markerTier_of_alert_level (d : Detection) (tier : Tier)
    (h : d.alert_level = some tier.toString) :
    (tier = Tier.HIGH → colorTier (markerColor d) = some Tier.HIGH) ∧
    (tier = Tier.MEDIUM → colorTier (markerColor d) =
      some (if d.confidence.ge (.fin lit085) = true then Tier.HIGH else Tier.MEDIUM)) ∧
    (tier = Tier.LOW →
      colorTier (markerColor d) = some (CommandPanel.getAlertLevel d.confidence)) := by
  rw [colorTier_markerColor]
  refine ⟨?_, ?_, ?_⟩
  · rintro rfl
    simp [h, Tier.toString]
  · rintro rfl
    simp only [h, Tier.toString]
    by_cases h85 : d.confidence.ge (.fin lit085) = true <;> simp [h85]
  · rintro rfl
    simp only [h, Tier.toString]
    rcases getAlertLevel_cases d.confidence with hc | hc | hc <;> simp [hc]

/-- C11, amended, at the supplied level `'LOW'` with the confidence `0.90`. -/
theorem markerTier_of_alert_level_witness :
    (Tier.LOW = Tier.HIGH → colorTier (markerColor lowLevelHighConfidence) = some Tier.HIGH) ∧
    (Tier.LOW = Tier.MEDIUM → colorTier (markerColor lowLevelHighConfidence) =
      some (if lowLevelHighConfidence.confidence.ge (.fin lit085) = true then Tier.HIGH
            else Tier.MEDIUM)) ∧
    (Tier.LOW = Tier.LOW → colorTier (markerColor lowLevelHighConfidence) =
      some (CommandPanel.getAlertLevel lowLevelHighConfidence.confidence)) :=
  markerTier_of_alert_level lowLevelHighConfidence Tier.LOW rfl

/-- C20: with the tiers ordered `LOW < MEDIUM < HIGH`, the tier of the colour that
`addMarker` gives a marker is the maximum of the supplied `alert_level` (taken as `LOW`
when absent or neither `'HIGH'` nor `'MEDIUM'`) and `getAlertLevel(confidence)`; without
a supplied level it is `getAlertLevel(confidence)`; it is never lower than
`getAlertLevel(confidence)`; and it is the colour of the marker a returning `addMarker`
stores. -/
theorem markerTier_eq_max (d : Detection) :
    colorTier (markerColor d) = some (specMarkerTier d) ∧
    (d.alert_level = none →
      colorTier (markerColor d) = some (CommandPanel.getAlertLevel d.confidence)) ∧
    (CommandPanel.getAlertLevel d.confidence).rank ≤ (specMarkerTier d).rank ∧
    (∀ (t t1 : TacticalMap) (env env1 : Browser), t.addMarker env d = .ok (t1, env1) →
      ∃ md, t1.markers = t.markers ++ [md] ∧
        colorTier md.marker.fillColor = some (specMarkerTier d)) := by
  have hmain : colorTier (markerColor d) = some (specMarkerTier d) := by
    rw [colorTier_markerColor]
    unfold specMarkerTier suppliedTier
    by_cases hH : d.alert_level = some "HIGH"
    · rcases getAlertLevel_cases d.confidence with ⟨h85, hl⟩ | ⟨h85, h70, hl⟩ |
        ⟨h85, h70, hl⟩ <;> simp [hH, hl, Tier.max, Tier.rank]
    · by_cases hM : d.alert_level = some "MEDIUM"
      · rcases getAlertLevel_cases d.confidence with ⟨h85, hl⟩ | ⟨h85, h70, hl⟩ |
          ⟨h85, h70, hl⟩ <;> simp [hM, h85, hl, Tier.max, Tier.rank]
      · rcases getAlertLevel_cases d.confidence with hc | hc | hc <;>
          simp [hH, hM, hc, Tier.max, Tier.rank]
  refine ⟨hmain, ?_, ?_, ?_⟩
  · intro hnone
    rw [hmain]
    unfold specMarkerTier suppliedTier
    cases hl : CommandPanel.getAlertLevel d.confidence <;>
      simp [hnone, Tier.max, Tier.rank]
  · unfold specMarkerTier Tier.max
    split_ifs with hle
    · exact Nat.le_refl _
    · omega
  · intro t t1 env env1 hcall
    obtain ⟨md, hms, _, hcol⟩ := addMarker_fillColor t t1 env env1 d hcall
    exact ⟨md, hms, by rw [hcol, hmain]⟩

end TacticalMap

/-! ## The API clients: theorems -/

namespace UltronAPI

/-- C15: for every outcome of the request, `getLiveDetections` and `getStatistics` return
and do not throw; on an envelope whose `success` is truthy they return its `detections`
and its `statistics`; on every other outcome (a rejected fetch, a body that does not
parse, a `null` body, an envelope whose `success` is falsy) they return the empty array
and `null`. -/
theorem ultronAPI_never_throws (period : String) (r : FetchResult) :
    (∃ v, getLiveDetections r = .ok v) ∧ (∃ v, getStatistics period r = .ok v) ∧
    (∀ ok status text data, r = .response ok status text (.object data) →
      data.success = true →
      getLiveDetections r = .ok data.detections ∧
        getStatistics period r = .ok data.statistics) ∧
    ((¬ ∃ ok status text data, r = .response ok status text (.object data) ∧
        data.success = true) →
      getLiveDetections r = .ok (some []) ∧ getStatistics period r = .ok none) := by
  refine ⟨?_, ?_, ?_, ?_⟩
  · unfold getLiveDetections
    cases getLiveDetectionsTry r <;> exact ⟨_, rfl⟩
  · unfold getStatistics
    cases getStatisticsTry r <;> exact ⟨_, rfl⟩
  · rintro ok status text data rfl hs
    simp [getLiveDetections, getLiveDetectionsTry, getStatistics, getStatisticsTry, hs]
  · intro hno
    cases r with
    | rejected => exact ⟨rfl, rfl⟩
    | response ok status text body =>
      cases body with
      | unparsable => exact ⟨rfl, rfl⟩
      | null => exact ⟨rfl, rfl⟩
      | object data =>
        have hs : data.success = false := by
          cases h : data.success
          · rfl
          · exact absurd ⟨ok, status, text, data, rfl, h⟩ hno
        simp [getLiveDetections, getLiveDetectionsTry, getStatistics, getStatisticsTry, hs]

end UltronAPI

namespace API

/-- C16, as stated, fails: on a response with status 500 and on a rejected fetch,
`API.request` and `API.getLiveDetections` throw to their caller. -/
theorem request_rethrows_counterexample :
    request "/api/detections/live" serverError =
      .error (JSError.httpError 500 "Internal Server Error") ∧
    getLiveDetections serverError = .error (JSError.httpError 500 "Internal Server Error") ∧
    request "/api/detections/live" .rejected = .error JSError.networkError ∧
    exportCSV "all" .rejected = .error JSError.networkError := by
  refine ⟨rfl, rfl, rfl, rfl⟩

/-- C16, amended: `API.request` returns the parsed body exactly on a response whose `ok`
flag is set and whose body parses; on a rejected fetch, on a response that is not `ok`
(a non-2xx status) and on a body that does not parse it throws the error to its caller,
so that success and failure are told apart by the exception. `getLiveDetections`,
`getStatistics`, `exportCSV` and `exportPDF` behave as `request` does. -/
theorem request_outcomes (endpoint period : String) (r : FetchResult) :
    (r = .rejected → request endpoint r = .error JSError.networkError) ∧
    (∀ status text body, r = .response false status text body →
      request endpoint r = .error (JSError.httpError status text)) ∧
    (∀ status text, r = .response true status text .unparsable →
      request endpoint r = .error JSError.syntaxError) ∧
    (∀ status text, r = .response true status text .null → request endpoint r = .ok none) ∧
    (∀ status text data, r = .response true status text (.object data) →
      request endpoint r = .ok (some data)) ∧
    getLiveDetections r = request endpoint r ∧ getStatistics period r = request endpoint r ∧
    exportCSV period r = request endpoint r ∧ exportPDF period r = request endpoint r := by
  refine ⟨?_, ?_, ?_, ?_, ?_, rfl, rfl, rfl, rfl⟩
  · rintro rfl; rfl
  · rintro status text body rfl; rfl
  · rintro status text rfl; rfl
  · rintro status text rfl; rfl
  · rintro status text data rfl; rfl

end API

/-! ## The panel as a whole: theorems -/

namespace App

open TacticalMap

/-- Coordinates that Leaflet accepts are present. -/
theorem hasCoords_of_validCoords (d : Detection) (h : d.ValidCoords) : d.HasCoords := by
  obtain ⟨lat, lon, hlat, hlon, _, _⟩ := h
  simp [Detection.HasCoords, hlat, hlon]

/-- With its sound requested, `addAlert` starts one tone when there is an audio context
and none otherwise. -/
theorem addAlert_sounds (p p1 : CommandPanel) (d : Detection)
    (h : p.addAlert d true = .ok p1) :
    p1.sounds.length = if p.audioContext then p.sounds.length + 1 else p.sounds.length := by
  unfold CommandPanel.addAlert at h
  split at h
  · simp only [if_true, Except.ok.injEq] at h
    subst h
    unfold CommandPanel.playAlertSound
    by_cases hac : p.audioContext = true <;> simp [hac]
  · cases h

/-- An exception of `handleNewDetection` is the exception of `addMarker`, raised before
anything is written. -/
theorem handleNewDetection_error (a : App) (data : NewDetection) (e : JSError)
    (h : a.handleNewDetection data = .error e) :
    a.world.tmap.addMarker a.world.env data.detection = .error e := by
  unfold handleNewDetection at h
  cases hadd : a.world.tmap.addMarker a.world.env data.detection with
  | error e1 => rw [hadd] at h; simp only at h; cases h; rfl
  | ok r =>
    exfalso
    rw [hadd] at h
    simp only at h
    have hvalid : data.detection.HasCoords := by
      unfold addMarker latLng? at hadd
      unfold Detection.HasCoords
      cases hlat : data.detection.latitude <;> cases hlon : data.detection.longitude <;>
        simp_all
    obtain ⟨p1, hp1, _⟩ := CommandPanel.addAlert_ok a.panel data.detection true hvalid
    rw [hp1] at h
    cases h

/-- What `handleNewDetection` does on an initialised store with a detection that has
valid coordinates. -/
theorem handleNewDetection_ok (a : App) (data : NewDetection)
    (hready : a.world.tmap.Ready) (hd : data.detection.ValidCoords) :
    ∃ a1 md p1, a.handleNewDetection data = .ok a1 ∧
      a1.world.tmap.markers = a.world.tmap.markers ++ [md] ∧ md.detection = data.detection ∧
      a.panel.addAlert data.detection true = .ok p1 ∧ a1.panel = p1 ∧
      a1.statsRequests = a.statsRequests ++ [a.statsPeriod] ∧
      a1.toasts = a.toasts ++
        [{ icon := "🚨",
           title := (CommandPanel.getAlertLevel data.detection.confidence).toString ++ " Alert",
           message := data.detection.message }] ∧
      a1.connected = a.connected := by
  obtain ⟨t1, env1, md, hcall, _, hdet, _, hms, _⟩ :=
    addMarker_ok a.world.tmap a.world.env data.detection hready hd
  obtain ⟨p1, hp1, _⟩ :=
    CommandPanel.addAlert_ok a.panel data.detection true (hasCoords_of_validCoords _ hd)
  have hrun : a.handleNewDetection data = .ok
      ((({ a with world := { tmap := t1, env := env1 }, panel := p1 } : App).updateStatisticsBegin).showToast
        "🚨" ((CommandPanel.getAlertLevel data.detection.confidence).toString ++ " Alert")
        data.detection.message) := by
    simp only [handleNewDetection, hcall, hp1]
  exact ⟨_, md, p1, hrun, hms, hdet, hp1, rfl, rfl, rfl, rfl⟩

/-- C13: for every `new_detection` payload whose detection has valid coordinates, on an
initialised store and with a positive `maxAlerts`, `handleNewDetection` returns; it
inserts the detection into the marker store (count + 1), puts it at index 0 of the alert
feed, issues one statistics request for the selected period, and shows exactly one
toast, whose title is `<tier> Alert` with `tier = getAlertLevel(detection.confidence)`
and whose message is `detection.message`. -/
theorem handleNewDetection_effects (a : App) (data : NewDetection)
    (hready : a.world.tmap.Ready) (hd : data.detection.ValidCoords)
    (hmax : 0 < a.panel.maxAlerts) :
    ∃ a1, a.handleNewDetection data = .ok a1 ∧
      a1.world.tmap.getMarkerCount = a.world.tmap.getMarkerCount + 1 ∧
      (∃ md, a1.world.tmap.markers = a.world.tmap.markers ++ [md] ∧
        md.detection = data.detection) ∧
      a1.panel.alerts[0]? = some data.detection ∧
      a1.statsRequests = a.statsRequests ++ [a.statsPeriod] ∧
      a1.toasts = a.toasts ++
        [{ icon := "🚨",
           title := (CommandPanel.getAlertLevel data.detection.confidence).toString ++ " Alert",
           message := data.detection.message }] := by
  obtain ⟨a1, md, p1, hcall, hms, hdet, hp1, hpanel, hreq, htoast, _⟩ :=
    handleNewDetection_ok a data hready hd
  refine ⟨a1, hcall, by simp [getMarkerCount, hms], ⟨md, hms, hdet⟩, ?_, hreq, htoast⟩
  obtain ⟨p2, hp2, _, hal⟩ :=
    CommandPanel.addAlert_ok a.panel data.detection true (hasCoords_of_validCoords _ hd)
  rw [hp1] at hp2
  cases hp2
  rw [hpanel, hal]
  split_ifs with hgt
  · cases hA : a.panel.alerts with
    | nil => rw [hA] at hgt; simp at hgt; omega
    | cons x xs => simp [List.dropLast]
  · simp

/-- C13 at the running panel and the sample event. -/
theorem handleNewDetection_effects_witness :
    ∃ a1, (App.live 0).handleNewDetection sampleEvent = .ok a1 ∧
      a1.world.tmap.getMarkerCount = (App.live 0).world.tmap.getMarkerCount + 1 ∧
      (∃ md, a1.world.tmap.markers = (App.live 0).world.tmap.markers ++ [md] ∧
        md.detection = sampleEvent.detection) ∧
      a1.panel.alerts[0]? = some sampleEvent.detection ∧
      a1.statsRequests = (App.live 0).statsRequests ++ [(App.live 0).statsPeriod] ∧
      a1.toasts = (App.live 0).toasts ++
        [{ icon := "🚨",
           title := (CommandPanel.getAlertLevel sampleEvent.detection.confidence).toString
             ++ " Alert",
           message := sampleEvent.detection.message }] :=
  handleNewDetection_effects (App.live 0) sampleEvent rfl
    (sampleDetection_validCoords 7 lit090) (by decide)

/-- The `new_detection` handler leaves the connection indicator as it is. -/
theorem onNewDetection_connected (a : App) (data : NewDetection) :
    (a.onNewDetection data).connected = a.connected := by
  unfold onNewDetection
  cases h : a.handleNewDetection data with
  | error e => rfl
  | ok a1 =>
    simp only
    unfold handleNewDetection at h
    split at h
    · cases h
    · split at h
      · cases h
      · simp only [Except.ok.injEq] at h
        subst h
        rfl

/-- In every state reached after a `disconnect` event through events other than
`connect`, the connection indicator is off. -/
theorem connected_false_after_disconnect (events : List SocketEvent) :
    ∀ a : App, a.connected = false → (∀ e ∈ events, e ≠ SocketEvent.connect) →
      (events.foldl handle a).connected = false := by
  induction events with
  | nil => intro a h _; exact h
  | cons e es ih =>
    intro a h hne
    apply ih (a.handle e) _ (fun x hx => hne x (List.mem_cons_of_mem _ hx))
    cases e with
    | connect => exact absurd rfl (hne _ (List.mem_cons_self _ _))
    | disconnect => rfl
    | newDetection data => simpa [handle, onNewDetection_connected] using h
    | detectionsUpdate => exact h

/-- C19, as stated, fails: after a `disconnect` event the running panel, with its
connection indicator off, handles a `new_detection` event by inserting the marker and by
showing one more toast and starting one alert tone. -/
theorem reconnecting_notifies_counterexample :
    (App.live 0).onDisconnect.connected = false ∧
    ((App.live 0).onDisconnect.onNewDetection sampleEvent).world.tmap.getMarkerCount =
      (App.live 0).onDisconnect.world.tmap.getMarkerCount + 1 ∧
    ((App.live 0).onDisconnect.onNewDetection sampleEvent).toasts.length =
      (App.live 0).onDisconnect.toasts.length + 1 ∧
    ((App.live 0).onDisconnect.onNewDetection sampleEvent).panel.sounds.length =
      (App.live 0).onDisconnect.panel.sounds.length + 1 := by
  refine ⟨by decide, by decide, by decide, by decide⟩

/-- C19, amended: in a state whose connection indicator is off, as is every state
reached after a `disconnect` event and before the next `connect` event
(`connected_false_after_disconnect`), handling a `new_detection` event is what it is when
connected: the detection is inserted into the marker store, exactly one toast is shown,
and one alert tone is started when the panel has an audio context. Nothing in the
handler reads the connection state. -/
theorem reconnecting_still_notifies (a : App) (data : NewDetection)
    (hoff : a.connected = false) (hready : a.world.tmap.Ready)
    (hd : data.detection.ValidCoords) :
    (a.onNewDetection data).connected = false ∧
    (a.onNewDetection data).world.tmap.getMarkerCount = a.world.tmap.getMarkerCount + 1 ∧
    (a.onNewDetection data).toasts = a.toasts ++
      [{ icon := "🚨",
         title := (CommandPanel.getAlertLevel data.detection.confidence).toString ++ " Alert",
         message := data.detection.message }] ∧
    (a.onNewDetection data).panel.sounds.length =
      (if a.panel.audioContext then a.panel.sounds.length + 1 else a.panel.sounds.length) := by
  obtain ⟨a1, md, p1, hcall, hms, _, hp1, hpanel, _, htoast, hconn⟩ :=
    handleNewDetection_ok a data hready hd
  have hon : a.onNewDetection data = a1 := by simp [onNewDetection, hcall]
  rw [hon]
  refine ⟨by rw [hconn, hoff], by simp [getMarkerCount, hms], htoast, ?_⟩
  rw [hpanel]
  exact addAlert_sounds a.panel p1 data.detection hp1

/-- C19, amended, at the running panel after a `disconnect` event. -/
theorem reconnecting_still_notifies_witness :
    ((App.live 0).onDisconnect.onNewDetection sampleEvent).connected = false ∧
    ((App.live 0).onDisconnect.onNewDetection sampleEvent).world.tmap.getMarkerCount =
      (App.live 0).onDisconnect.world.tmap.getMarkerCount + 1 ∧
    ((App.live 0).onDisconnect.onNewDetection sampleEvent).toasts =
      (App.live 0).onDisconnect.toasts ++
        [{ icon := "🚨",
           title := (CommandPanel.getAlertLevel sampleEvent.detection.confidence).toString
             ++ " Alert",
           message := sampleEvent.detection.message }] ∧
    ((App.live 0).onDisconnect.onNewDetection sampleEvent).panel.sounds.length =
      (if (App.live 0).onDisconnect.panel.audioContext
        then (App.live 0).onDisconnect.panel.sounds.length + 1
        else (App.live 0).onDisconnect.panel.sounds.length) :=
  reconnecting_still_notifies (App.live 0).onDisconnect sampleEvent rfl rfl
    (sampleDetection_validCoords 7 lit090)

/-- C14, as stated, fails in its second half: when the statistics request is answered
with `success: false`, `updateStatistics` leaves the displayed statistics as they were
but completes normally, as it does on success, and shows no toast: its caller is not
told of the failure. -/
theorem updateStatistics_silent_counterexample :
    ∃ a1, (App.live 0).updateStatistics failureResponse = .ok a1 ∧
      a1.display = (App.live 0).display ∧ a1.toasts = (App.live 0).toasts ∧
      ∀ e, (App.live 0).updateStatistics failureResponse ≠ .error e := by
  refine ⟨(App.live 0).updateStatisticsBegin, rfl, rfl, rfl, ?_⟩
  intro e h
  cases h

/-- C14, amended: when the statistics request is answered with an envelope whose
`success` is false, `updateStatistics` leaves all four displayed statistics exactly as
they were and completes normally: beyond the request it issued nothing changes, no
toast is shown, and no failure reaches its caller (`getStatistics` has logged the error
and returned `null`). -/
theorem updateStatistics_failure_keeps_display (a : App) (ok : Bool) (status : Nat)
    (text : String) (data : Envelope) (hfail : data.success = false) :
    a.updateStatistics (.response ok status text (.object data)) =
        .ok a.updateStatisticsBegin ∧
      a.updateStatisticsBegin.display = a.display ∧
      a.updateStatisticsBegin.toasts = a.toasts ∧
      a.updateStatisticsBegin.statsRequests = a.statsRequests ++ [a.statsPeriod] := by
  refine ⟨?_, rfl, rfl, rfl⟩
  simp [updateStatistics, updateStatisticsEnd, UltronAPI.getStatistics,
    UltronAPI.getStatisticsTry, hfail]

/-- C14, amended, at the running panel and a failure envelope. -/
theorem updateStatistics_failure_keeps_display_witness :
    (App.live 0).updateStatistics (.response true 200 "OK" (.object failureEnvelope)) =
        .ok (App.live 0).updateStatisticsBegin ∧
      (App.live 0).updateStatisticsBegin.display = (App.live 0).display ∧
      (App.live 0).updateStatisticsBegin.toasts = (App.live 0).toasts ∧
      (App.live 0).updateStatisticsBegin.statsRequests =
        (App.live 0).statsRequests ++ [(App.live 0).statsPeriod] :=
  updateStatistics_failure_keeps_display (App.live 0) true 200 "OK" failureEnvelope rfl

/-- C18, as stated, fails: the running panel has handled one `new_detection` event, so
one marker timeout is pending; `cleanup()` stops the statistics interval but leaves that
timeout pending, and when the clock reaches its time it still fires and removes the
marker. -/
theorem cleanup_keeps_timeouts_counterexample :
    ((App.live 0).onNewDetection sampleEvent).intervals = [1] ∧
    ((App.live 0).onNewDetection sampleEvent).cleanup.intervals = [] ∧
    ((App.live 0).onNewDetection sampleEvent).cleanup.world.env.timeouts.map Timeout.fireAt =
      [300000] ∧
    ((App.live 0).onNewDetection sampleEvent).cleanup.world.tmap.getMarkerCount = 1 ∧
    (((App.live 0).onNewDetection sampleEvent).cleanup.world.advance
      300000).tmap.getMarkerCount = 0 := by
  refine ⟨by decide, by decide, by decide, by decide, by decide⟩

/-- C18, amended: `cleanup()` cancels the statistics refresh interval; it leaves the
marker store and every pending marker timeout as they are; and a second call leaves the
state as after the first. -/
theorem cleanup_effects (a : App) :
    (∀ id, a.statsUpdateInterval = some id → id ≠ 0 → id ∉ a.cleanup.intervals) ∧
    a.cleanup.world = a.world ∧
    a.cleanup.cleanup = a.cleanup := by
  refine ⟨?_, ?_, ?_⟩
  · intro id hid hne
    unfold cleanup
    simp only [hid, hne, if_false]
    split_ifs <;> simp [List.mem_filter]
  · unfold cleanup
    cases a.statsUpdateInterval with
    | none => simp only; split_ifs <;> rfl
    | some id => simp only; split_ifs <;> rfl
  · unfold cleanup
    cases hint : a.statsUpdateInterval with
    | none =>
      simp only
      by_cases hac : a.panel.audioContext = true <;> simp [hac, hint]
    | some id =>
      simp only
      by_cases hz : id = 0 <;> by_cases hac : a.panel.audioContext = true <;>
        simp [hz, hac, hint, List.filter_filter]

/-- Leaflet rejects the coordinates of a detection that has no valid coordinates. -/
theorem latLng?_eq_none (d : Detection) (h : ¬ d.ValidCoords) : latLng? d = none := by
  unfold latLng?
  cases hlat : d.latitude with
  | none => rfl
  | some lat =>
    cases hlon : d.longitude with
    | none => rfl
    | some lon =>
      simp only
      by_cases hn : (lat.isNaN || lon.isNaN) = true
      · simp [hn]
      · exfalso
        apply h
        simp only [Bool.or_eq_true, not_or, Bool.not_eq_true] at hn
        exact ⟨lat, lon, hlat, hlon, hn.1, hn.2⟩

/-- On an initialised store the marker loop runs through a list of detections with valid
coordinates and appends one marker for each, in order. -/
theorem addMarkers_ok (ds : List Detection) :
    ∀ w : World, w.tmap.Ready → (∀ d ∈ ds, d.ValidCoords) →
      ∃ w1, addMarkers w ds = (w1, none) ∧ w1.tmap.Ready ∧
        w1.tmap.markers.map MarkerData.detection =
          w.tmap.markers.map MarkerData.detection ++ ds := by
  induction ds with
  | nil => intro w hr _; exact ⟨w, rfl, hr, by simp⟩
  | cons d ds ih =>
    intro w hr hv
    obtain ⟨t1, env1, md, hcall, _, hdet, _, hms, hr1, _⟩ :=
      addMarker_ok w.tmap w.env d hr (hv d (List.mem_cons_self _ _))
    obtain ⟨w1, hw1, hr2, hms2⟩ :=
      ih { tmap := t1, env := env1 } hr1 (fun x hx => hv x (List.mem_cons_of_mem _ hx))
    refine ⟨w1, by simp only [addMarkers, hcall, hw1], hr2, ?_⟩
    rw [hms2]
    simp [hms, hdet]

/-- The marker loop ends at the first detection without valid coordinates: the markers
of the detections before it are in the store, and nothing after it is looked at. -/
theorem addMarkers_stops (pre : List Detection) (bad : Detection) (post : List Detection)
    (hbad : ¬ bad.ValidCoords) :
    ∀ w : World, w.tmap.Ready → (∀ d ∈ pre, d.ValidCoords) →
      ∃ w1, addMarkers w (pre ++ bad :: post) = (w1, some JSError.invalidLatLng) ∧
        w1.tmap.markers.map MarkerData.detection =
          w.tmap.markers.map MarkerData.detection ++ pre := by
  induction pre with
  | nil =>
    intro w _ _
    refine ⟨w, ?_, by simp⟩
    simp [addMarkers, addMarker, latLng?_eq_none bad hbad]
  | cons d ds ih =>
    intro w hr hv
    obtain ⟨t1, env1, md, hcall, _, hdet, _, hms, hr1, _⟩ :=
      addMarker_ok w.tmap w.env d hr (hv d (List.mem_cons_self _ _))
    obtain ⟨w1, hw1, hms2⟩ :=
      ih { tmap := t1, env := env1 } hr1 (fun x hx => hv x (List.mem_cons_of_mem _ hx))
    refine ⟨w1, ?_, ?_⟩
    · rw [List.cons_append]
      simp only [addMarkers, hcall]
      exact hw1
    · rw [hms2]
      simp [hms, hdet]

/-- The alert loop over detections that have coordinates is the sequence of `addAlert`
calls without sound. -/
theorem seedAlerts_eq (ds : List Detection) :
    ∀ p : CommandPanel, (∀ d ∈ ds, d.HasCoords) →
      seedAlerts p ds = (p.addAlerts (ds.map (fun d => (d, false))), none) := by
  induction ds with
  | nil => intro p _; rfl
  | cons d ds ih =>
    intro p hv
    obtain ⟨p1, hp1, _⟩ := CommandPanel.addAlert_ok p d false (hv d (List.mem_cons_self _ _))
    have hstep : p.afterAddAlert (d, false) = p1 := by
      simp [CommandPanel.afterAddAlert, hp1]
    simp only [seedAlerts, hp1, ih p1 (fun x hx => hv x (List.mem_cons_of_mem _ hx))]
    simp [CommandPanel.addAlerts, hstep]

/-- What `loadInitialData` leaves when every live detection has valid coordinates: one
marker for each, a statistics request, no toast, and in `alerts` the last ten detections
in the order of the list, that is, with the oldest of them at index 0. -/
theorem loadInitialData_ok (a : App) (ds : List Detection) (hready : a.world.tmap.Ready)
    (hv : ∀ d ∈ ds, d.ValidCoords) (hempty : a.panel.alerts = [])
    (hmax : 10 ≤ a.panel.maxAlerts) :
    (a.loadInitialData (liveResponse ds)).panel.alerts = sliceLast 10 ds ∧
    (a.loadInitialData (liveResponse ds)).world.tmap.markers.map MarkerData.detection =
      a.world.tmap.markers.map MarkerData.detection ++ ds ∧
    (a.loadInitialData (liveResponse ds)).toasts = a.toasts ∧
    (a.loadInitialData (liveResponse ds)).statsRequests =
      a.statsRequests ++ [a.statsPeriod] := by
  obtain ⟨w1, hw1, _, hms⟩ := addMarkers_ok ds a.world hready hv
  have hslice : ∀ d ∈ (sliceLast 10 ds).reverse, d.HasCoords := by
    intro d hd
    exact hasCoords_of_validCoords d
      (hv d (List.mem_of_mem_drop (List.mem_reverse.mp hd)))
  have hseed := seedAlerts_eq (sliceLast 10 ds).reverse a.panel hslice
  have hlive : UltronAPI.getLiveDetections (liveResponse ds) = .ok (some ds) := rfl
  have hrun : a.loadInitialData (liveResponse ds) =
      ({ a with world := w1,
                panel := a.panel.addAlerts
                  ((sliceLast 10 ds).reverse.map (fun d => (d, false))) } :
        App).updateStatisticsBegin := by
    simp only [loadInitialData, hlive, hw1, hseed]
  rw [hrun]
  refine ⟨?_, hms, rfl, rfl⟩
  show (a.panel.addAlerts ((sliceLast 10 ds).reverse.map (fun d => (d, false)))).alerts = _
  obtain ⟨_, hal⟩ := CommandPanel.addAlerts_take
    ((sliceLast 10 ds).reverse.map (fun d => (d, false))) a.panel (by simp [hempty])
    (by
      intro c hc
      obtain ⟨d, hd, rfl⟩ := List.mem_map.mp hc
      exact hslice d hd)
  rw [hal, hempty, List.append_nil]
  have hmap : (((sliceLast 10 ds).reverse.map (fun d => (d, false))).map Prod.fst).reverse =
      sliceLast 10 ds := by
    simp [List.map_map, Function.comp_def]
  rw [hmap]
  apply List.take_of_length_le
  unfold sliceLast
  rw [List.length_drop]
  omega

/-- C12: evaluation of `loadInitialData` on the live list `[1, 2]` in chronological
order, from the panel as `init()` calls it: both detections are seeded, but `alerts` is
`[1, 2]`, with the older detection at index 0 and the newer, the last of the list, at
index 1, where the claim has the newest first. Were the list delivered newest first
instead, eleven detections `11, ..., 1` would leave `10, ..., 1`, without the most
recent one. -/
theorem loadInitialData_seeds_oldest_first :
    twoLive.map Detection.id = [1, 2] ∧
    ((App.initial 0).loadInitialData (liveResponse twoLive)).panel.alerts.map Detection.id =
      [1, 2] ∧
    (((App.initial 0).loadInitialData (liveResponse twoLive)).panel.alerts[0]?).map
      Detection.id = some 1 ∧
    (twoLive.getLast?).map Detection.id = some 2 ∧
    ((App.initial 0).loadInitialData (liveResponse elevenNewestFirst)).panel.alerts.map
      Detection.id = [10, 9, 8, 7, 6, 5, 4, 3, 2, 1] := by
  refine ⟨by decide, by decide, by decide, by decide, by decide⟩

/-- C17, as stated, fails: with the malformed detection 2 between the well-formed 1 and
3, `loadInitialData` inserts only detection 1 into the marker store, seeds no alert, asks
for no statistics and shows the error toast. -/
theorem loadInitialData_batch_counterexample :
    (((App.initial 0).loadInitialData (liveResponse batchWithMalformed)).world.tmap.markers.map
      (fun m => m.detection.id)) = [1] ∧
    ((App.initial 0).loadInitialData (liveResponse batchWithMalformed)).panel.alerts.length
      = 0 ∧
    ((App.initial 0).loadInitialData (liveResponse batchWithMalformed)).statsRequests = [] ∧
    ((App.initial 0).loadInitialData (liveResponse batchWithMalformed)).toasts =
      [{ icon := "❌", title := "Error", message := "Failed to load initial data" }] := by
  refine ⟨by decide, by decide, by decide, by decide⟩

/-- C17, amended: when the live list holds a detection without valid coordinates,
`loadInitialData` stops at the first such detection: the detections before it are
inserted into the marker store, it and every detection after it are not, no detection is
seeded into the alert feed, no statistics are requested, and the one toast
`Failed to load initial data` is shown. -/
theorem loadInitialData_stops_at_malformed (a : App) (pre post : List Detection)
    (bad : Detection) (hready : a.world.tmap.Ready) (hpre : ∀ d ∈ pre, d.ValidCoords)
    (hbad : ¬ bad.ValidCoords) :
    (a.loadInitialData (liveResponse (pre ++ bad :: post))).world.tmap.markers.map
      MarkerData.detection = a.world.tmap.markers.map MarkerData.detection ++ pre ∧
    (a.loadInitialData (liveResponse (pre ++ bad :: post))).panel = a.panel ∧
    (a.loadInitialData (liveResponse (pre ++ bad :: post))).statsRequests =
      a.statsRequests ∧
    (a.loadInitialData (liveResponse (pre ++ bad :: post))).toasts = a.toasts ++
      [{ icon := "❌", title := "Error", message := "Failed to load initial data" }] := by
  obtain ⟨w1, hw1, hms⟩ := addMarkers_stops pre bad post hbad a.world hready hpre
  have hlive : UltronAPI.getLiveDetections (liveResponse (pre ++ bad :: post)) =
      .ok (some (pre ++ bad :: post)) := rfl
  have hrun : a.loadInitialData (liveResponse (pre ++ bad :: post)) =
      ({ a with world := w1 } : App).showToast "❌" "Error" "Failed to load initial data" := by
    simp only [loadInitialData, hlive, hw1]
  rw [hrun]
  exact ⟨hms, rfl, rfl, rfl⟩

/-- A detection whose latitude is missing has no valid coordinates. -/
theorem malformedDetection_invalid (id : Nat) : ¬ (malformedDetection id).ValidCoords := by
  rintro ⟨lat, lon, hlat, _⟩
  cases hlat

/-- C17, amended, at the batch `[1, malformed 2, 3]`. -/
theorem loadInitialData_stops_at_malformed_witness :
    ((App.initial 0).loadInitialData (liveResponse
        ([sampleDetection 1 lit050] ++ malformedDetection 2 ::
          [sampleDetection 3 lit050]))).world.tmap.markers.map MarkerData.detection =
      (App.initial 0).world.tmap.markers.map MarkerData.detection ++
        [sampleDetection 1 lit050] ∧
    ((App.initial 0).loadInitialData (liveResponse
        ([sampleDetection 1 lit050] ++ malformedDetection 2 ::
          [sampleDetection 3 lit050]))).panel = (App.initial 0).panel ∧
    ((App.initial 0).loadInitialData (liveResponse
        ([sampleDetection 1 lit050] ++ malformedDetection 2 ::
          [sampleDetection 3 lit050]))).statsRequests = (App.initial 0).statsRequests ∧
    ((App.initial 0).loadInitialData (liveResponse
        ([sampleDetection 1 lit050] ++ malformedDetection 2 ::
          [sampleDetection 3 lit050]))).toasts = (App.initial 0).toasts ++
      [{ icon := "❌", title := "Error", message := "Failed to load initial data" }] :=
  loadInitialData_stops_at_malformed (App.initial 0) [sampleDetection 1 lit050]
    [sampleDetection 3 lit050] (malformedDetection 2) rfl
    (by
      intro d hd
      rw [List.mem_singleton.mp hd]
      exact sampleDetection_validCoords 1 lit050)
    (malformedDetection_invalid 2)

/-- The three guards of `applyCustomLocation` all pass exactly on the inputs that are
numbers within the bounds, the bounds included. -/
theorem guards_pass_iff (lat lon : JSNum) :
    ((lat.isNaN || lon.isNaN) = false ∧
      (lat.lt (.fin (-90)) || (JSNum.fin 90).lt lat) = false ∧
      (lon.lt (.fin (-180)) || (JSNum.fin 180).lt lon) = false) ↔ ValidLocation lat lon := by
  constructor
  · rintro ⟨hnan, hlat, hlon⟩
    cases lat <;> cases lon <;> simp [JSNum.isNaN, JSNum.lt] at hnan hlat hlon
    rename_i x y
    exact ⟨x, y, rfl, rfl, hlat.1, hlat.2, hlon.1, hlon.2⟩
  · rintro ⟨x, y, rfl, rfl, h1, h2, h3, h4⟩
    simp [JSNum.isNaN, JSNum.lt, h1, h2, h3, h4]

/-- On an initialised map whose centre is a pair of numbers, `updateGeofence` returns; it
changes neither the centre nor the view. -/
theorem updateGeofence_ok (t : TacticalMap) (env : Browser) (radius : Nat) (m : LeafletMap)
    (hm : t.map = some m) (h1 : t.centerCoords.1.isNaN = false)
    (h2 : t.centerCoords.2.isNaN = false) :
    ∃ t1 env1 m1, t.updateGeofence env radius = (t1, env1, none) ∧
      t1.centerCoords = t.centerCoords ∧ t1.map = some m1 ∧ m1.view = m.view ∧
      t1.markers = t.markers := by
  unfold TacticalMap.updateGeofence
  cases hg : t.geofence with
  | none =>
    simp only [hm, h1, h2, Bool.or_self, Bool.false_eq_true, if_false]
    exact ⟨_, _, _, rfl, rfl, rfl, rfl, rfl⟩
  | some g =>
    simp only [hm, h1, h2, Bool.or_self, Bool.false_eq_true, if_false]
    exact ⟨_, _, _, rfl, rfl, rfl, rfl, rfl⟩

/-- C21: `applyCustomLocation` sets `map.centerCoords` to `[lat, lon]` when both parsed
inputs are numbers (not `NaN`) with `-90 <= lat <= 90` and `-180 <= lon <= 180`, the
bounds included, and then, on an initialised map, also sets the view, closes the dialog
and shows the success toast; for every other input it shows one error toast and leaves
the map, `centerCoords` included, and the dialog as they were. -/
theorem applyCustomLocation_iff (toFixed : JSNum → Nat → String) (a : App)
    (v : LocationView) (lat lon : JSNum) :
    (ValidLocation lat lon →
      (applyCustomLocation toFixed a v lat lon).1.world.tmap.centerCoords = (lat, lon) ∧
      (a.world.tmap.Ready →
        (applyCustomLocation toFixed a v lat lon).2.2 = none ∧
        (∃ m, (applyCustomLocation toFixed a v lat lon).1.world.tmap.map = some m ∧
          m.view = (lat, lon)) ∧
        (applyCustomLocation toFixed a v lat lon).2.1.modalShown = false ∧
        (applyCustomLocation toFixed a v lat lon).1.toasts = a.toasts ++
          [{ icon := "📍", title := "Location Updated",
             message := "Map centered at " ++ (toFixed lat 4 ++ ", " ++ toFixed lon 4) }])) ∧
    (¬ ValidLocation lat lon →
      (∃ title message,
        (applyCustomLocation toFixed a v lat lon).1 = a.showToast "❌" title message) ∧
      (applyCustomLocation toFixed a v lat lon).1.world = a.world ∧
      (applyCustomLocation toFixed a v lat lon).1.world.tmap.centerCoords =
        a.world.tmap.centerCoords ∧
      (applyCustomLocation toFixed a v lat lon).2.1 = v ∧
      (applyCustomLocation toFixed a v lat lon).2.2 = none) := by
  constructor
  · intro hvalid
    obtain ⟨hnan, hlat, hlon⟩ := (guards_pass_iff lat lon).mpr hvalid
    have hn1 : lat.isNaN = false := by
      cases h : lat.isNaN <;> simp_all
    have hn2 : lon.isNaN = false := by
      cases h : lon.isNaN <;> simp_all
    cases hmap : a.world.tmap.map with
    | none =>
      have hrun : applyCustomLocation toFixed a v lat lon =
          ({ a with world := { a.world with
              tmap := { a.world.tmap with centerCoords := (lat, lon) } } }, v,
            some JSError.typeError) := by
        simp only [applyCustomLocation, hnan, hlat, hlon, hmap, Bool.false_eq_true, if_false]
      rw [hrun]
      refine ⟨rfl, ?_⟩
      intro hready
      simp [TacticalMap.Ready, hmap] at hready
    | some m =>
      obtain ⟨t1, env1, m1, hgeo, hcc, hm1, hview, _⟩ :=
        updateGeofence_ok
          { a.world.tmap with centerCoords := (lat, lon), map := some (m.setView (lat, lon)) }
          a.world.env 5000 (m.setView (lat, lon)) rfl hn1 hn2
      have hrun : applyCustomLocation toFixed a v lat lon =
          (({ a with world := { tmap := t1, env := env1 } } : App).showToast "📍"
              "Location Updated"
              ("Map centered at " ++ (toFixed lat 4 ++ ", " ++ toFixed lon 4)),
            { currentLocation := toFixed lat 4 ++ ", " ++ toFixed lon 4,
              modalShown := false }, none) := by
        simp only [applyCustomLocation, hnan, hlat, hlon, hmap, hgeo, Bool.false_eq_true,
          if_false]
      rw [hrun]
      refine ⟨hcc, fun _ => ⟨rfl, ⟨m1, hm1, hview⟩, rfl, rfl⟩⟩
  · intro hinvalid
    have hguard : ¬ ((lat.isNaN || lon.isNaN) = false ∧
        (lat.lt (.fin (-90)) || (JSNum.fin 90).lt lat) = false ∧
        (lon.lt (.fin (-180)) || (JSNum.fin 180).lt lon) = false) :=
      fun h => hinvalid ((guards_pass_iff lat lon).mp h)
    unfold applyCustomLocation
    by_cases hnan : (lat.isNaN || lon.isNaN) = true
    · rw [if_pos hnan]
      exact ⟨⟨_, _, rfl⟩, rfl, rfl, rfl, rfl⟩
    · rw [if_neg hnan]
      by_cases hlat : (lat.lt (.fin (-90)) || (JSNum.fin 90).lt lat) = true
      · rw [if_pos hlat]
        exact ⟨⟨_, _, rfl⟩, rfl, rfl, rfl, rfl⟩
      · rw [if_neg hlat]
        by_cases hlon : (lon.lt (.fin (-180)) || (JSNum.fin 180).lt lon) = true
        · rw [if_pos hlon]
          exact ⟨⟨_, _, rfl⟩, rfl, rfl, rfl, rfl⟩
        · exfalso
          apply hguard
          exact ⟨by simpa using hnan, by simpa using hlat, by simpa using hlon⟩

end App

end Ultron
